import Mathlib

/-!
Verification development for the node.gl GPU-context core: a shallow
embedding of `libnodegl/src/api.c` (context dispatcher, probing, scene
management, command mailbox) and
`libnodegl/src/backends/gl/gpu_ctx_gl.c` (OpenGL backend and its
render-target layer), together with theorems about the embedded code.

Driver- and platform-level collaborators (glcontext, textures, the node
graph) live outside the embedded sources; they are modelled as explicit
oracle records (`GlDriver`, `ApiDriver`, `ProbeDriver`) so that every
embedded function stays a pure, executable state transformer.
-/

/-- Error taxonomy of `nodegl.h` (small negative integers in C). -/
inductive Err
  | invalidArg
  | invalidUsage
  | unsupported
  | memory
  | graphicsUnsupported
  | externalErr
  | generic
  deriving DecidableEq

/-! ## Configuration model (`struct ngl_config`, `struct ngl_config_gl`) -/

inductive Backend
  | auto
  | opengl
  | opengles
  | vulkan
  /-- an out-of-range integer backend id -/
  | invalid
  deriving DecidableEq

inductive Platform
  | auto
  | xlib
  | ios
  | macos
  | android
  | windows
  deriving DecidableEq

inductive CaptureBufferType
  | cpu
  | corevideo
  /-- an integer value that is neither CPU nor CoreVideo -/
  | invalid
  deriving DecidableEq

/-- `struct ngl_config_gl`: the GL-specific sub-configuration. -/
structure ConfigGL where
  external : Bool
  external_framebuffer : Nat
  deriving DecidableEq

/-- A clear color (4 floats; sign-exact values modelled as rationals). -/
structure Color4 where
  r : ℚ
  g : ℚ
  b : ℚ
  a : ℚ
  deriving DecidableEq

def zeroColor : Color4 := ⟨0, 0, 0, 0⟩

/-- An `int[4]` viewport or scissor rectangle. -/
structure IVec4 where
  x : Int
  y : Int
  z : Int
  w : Int
  deriving DecidableEq

/-- `struct ngl_config` restricted to the fields the embedded code reads. -/
structure NglConfig where
  width : Int
  height : Int
  offscreen : Bool
  backend : Backend
  platform : Platform
  samples : Int
  capture_buffer : Option Nat
  capture_buffer_type : CaptureBufferType
  clear_color : Color4
  viewport : IVec4
  swap_interval : Int
  hud : Bool
  backend_config : Option ConfigGL
  deriving DecidableEq

/-- `config_gl ? config_gl->external : 0`, the test used all over the GL
backend to recognize an externally wrapped context. -/
def NglConfig.is_external (c : NglConfig) : Bool :=
  (c.backend_config.map (·.external)).getD false

/-- `config_gl->external_framebuffer` with the same NULL-tolerant access. -/
def NglConfig.external_fbo (c : NglConfig) : Nat :=
  (c.backend_config.map (·.external_framebuffer)).getD 0

/-! ## GL driver oracle and native context (`struct glcontext`) -/

/-- The native feature bits (`NGLI_FEATURE_GL_*`) the embedded code reads. -/
structure FeaturesGL where
  framebuffer_object : Bool
  invalidate_subdata : Bool
  clear_buffer : Bool
  draw_buffers : Bool
  timer_query : Bool
  disjoint_timer_query : Bool
  deriving DecidableEq

structure LimitsGL where
  max_color_attachments : Nat
  max_draw_buffers : Nat
  deriving DecidableEq

/-- Oracle for every driver/platform call the GL backend makes.  Each field
fixes the outcome of one external call, so the embedded functions are pure. -/
structure GlDriver where
  /-- `ngli_glcontext_new` succeeds -/
  create_ok : Bool
  features : FeaturesGL
  limits : LimitsGL
  /-- swapchain dimensions reported by the window system at creation -/
  native_width : Int
  native_height : Int
  /-- sample count of the created native context -/
  native_samples : Int
  /-- `ngli_glcontext_get_default_framebuffer` -/
  default_framebuffer : Nat
  /-- `ngli_glcontext_resize` succeeds -/
  resize_ok : Bool
  /-- authoritative dimensions after a native resize -/
  resized_width : Int
  resized_height : Int
  /-- `glCheckFramebufferStatus` returns COMPLETE -/
  fbo_complete : Bool
  /-- `ngli_texture_init` succeeds -/
  texture_ok : Bool
  /-- the external-framebuffer introspection finds every channel present -/
  wrap_check_ok : Bool
  /-- CoreVideo pixel-buffer wrapping succeeds -/
  cv_ok : Bool
  cv_width : Int
  cv_height : Int

/-- `struct glcontext` restricted to the fields the embedded code reads. -/
structure GlContext where
  offscreen : Bool
  width : Int
  height : Int
  samples : Int
  features : FeaturesGL
  limits : LimitsGL
  default_framebuffer : Nat
  deriving DecidableEq

/-- Modelled from the spec: `ngli_glcontext_new` (platform windowing glue,
outside the embedded sources) creates the native context.  For onscreen
contexts the authoritative dimensions come from the window system; for
offscreen contexts they are the requested ones. -/
def ngli_glcontext_new (d : GlDriver) (offscreen : Bool) (width height : Int) :
    Option GlContext :=
  if d.create_ok then
    some { offscreen
           width := if offscreen then width else d.native_width
           height := if offscreen then height else d.native_height
           samples := d.native_samples
           features := d.features
           limits := d.limits
           default_framebuffer := d.default_framebuffer }
  else none

/-- Modelled from the spec: `ngli_glcontext_resize` (outside the embedded
sources) resizes the native window/swapchain; the request is a hint and the
driver reports the authoritative new size. -/
def ngli_glcontext_resize (d : GlDriver) (gl : GlContext) (_w _h : Int) :
    Except Err GlContext :=
  if d.resize_ok then
    .ok { gl with width := d.resized_width, height := d.resized_height }
  else .error .externalErr

/-! ## Textures and render targets -/

inductive PixelFormat
  | r8g8b8a8_unorm
  | b8g8r8a8_unorm
  | d24_unorm_s8_uint
  deriving DecidableEq

structure Texture where
  format : PixelFormat
  width : Int
  height : Int
  samples : Int
  deriving DecidableEq

inductive LoadOp
  | dont_care
  | clear
  | load
  deriving DecidableEq

inductive StoreOp
  | dont_care
  | store
  deriving DecidableEq

/-- One color or depth-stencil attachment slot (`struct attachment`). -/
structure Attachment where
  attachment : Option Texture
  resolve_target : Option Texture
  load_op : LoadOp
  store_op : StoreOp
  clear_value : Color4
  deriving DecidableEq

/-- A zero-initialized attachment, as C leaves unset slots. -/
def Attachment.null : Attachment :=
  { attachment := none, resolve_target := none, load_op := .dont_care
    store_op := .dont_care, clear_value := zeroColor }

/-- `struct rendertarget_params` (`nb_colors` is `colors.length`). -/
structure RTParams where
  width : Int
  height : Int
  colors : List Attachment
  depth_stencil : Attachment
  deriving DecidableEq

/-- `struct rendertarget` fused with its GL subtype `struct rendertarget_gl`
(the fields the embedded code reads). -/
structure RTargetGL where
  width : Int
  height : Int
  params : RTParams
  wrapped : Bool
  id : Nat
  resolve_id : Nat
  /-- GL_COLOR_BUFFER_BIT present in `clear_flags` -/
  clear_color_flag : Bool
  /-- GL_DEPTH_BUFFER_BIT and GL_STENCIL_BUFFER_BIT present in `clear_flags` -/
  clear_depth_flag : Bool
  deriving DecidableEq

/-- `require_resolve_fbo`. -/
def require_resolve_fbo (params : RTParams) : Bool :=
  params.colors.any (fun a => a.resolve_target.isSome)

/-- `create_fbo`: binds the attachments and checks completeness.  Failure
cases kept from the source: more color attachments than
`max_color_attachments`, or an incomplete framebuffer (a driver-level check,
the `fbo_complete` oracle).  The returned framebuffer id only needs to be
non-zero. -/
def create_fbo (d : GlDriver) (gl : GlContext) (params : RTParams) (resolve : Bool) :
    Except Err Nat :=
  let nb := (params.colors.filter
    (fun a => (if resolve then a.resolve_target else a.attachment).isSome)).length
  if nb > gl.limits.max_color_attachments then .error .generic
  else if d.fbo_complete then .ok (if resolve then 2 else 1)
  else .error .generic

/-- `ngli_rendertarget_gl_init`. -/
def ngli_rendertarget_gl_init (d : GlDriver) (gl : GlContext) (params : RTParams) :
    Except Err RTargetGL :=
  if require_resolve_fbo params ∧ ¬gl.features.framebuffer_object then
    .error .graphicsUnsupported
  else
    match (if require_resolve_fbo params then create_fbo d gl params true else .ok 0) with
    | .error e => .error e
    | .ok resolve_id =>
      match create_fbo d gl params false with
      | .error e => .error e
      | .ok id =>
        if gl.features.draw_buffers ∧ params.colors.length > gl.limits.max_draw_buffers then
          .error .graphicsUnsupported
        else
          .ok { width := params.width
                height := params.height
                params
                wrapped := false
                id
                resolve_id
                clear_color_flag := params.colors.any
                  (fun a => a.load_op = .dont_care ∨ a.load_op = .clear)
                clear_depth_flag := params.depth_stencil.attachment.isSome ∧
                  (params.depth_stencil.load_op = .dont_care ∨
                   params.depth_stencil.load_op = .clear) }

/-- `ngli_rendertarget_gl_wrap`: adopts a caller-owned framebuffer id; never
fails (the source asserts its preconditions, which hold at every call site of
the embedded code). -/
def ngli_rendertarget_gl_wrap (params : RTParams) (id : Nat) : RTargetGL :=
  let color := params.colors.headD Attachment.null
  { width := params.width
    height := params.height
    params
    wrapped := true
    id
    resolve_id := 0
    clear_color_flag := color.load_op = .dont_care ∨ color.load_op = .clear
    clear_depth_flag := params.depth_stencil.load_op = .dont_care ∨
      params.depth_stencil.load_op = .clear }

/-- The render-target parameters `create_rendertarget` builds for a default
render target: one color attachment, `STORE` store ops, the config's clear
color, and the given load op on both the color and the depth-stencil
attachment. -/
def default_rt_params (config : NglConfig)
    (color resolve_color depth_stencil : Option Texture) (load_op : LoadOp) :
    RTParams :=
  { width := config.width
    height := config.height
    colors := [{ attachment := color
                 resolve_target := resolve_color
                 load_op
                 store_op := .store
                 clear_value := config.clear_color }]
    depth_stencil := { attachment := depth_stencil
                       resolve_target := none
                       load_op
                       store_op := .store
                       clear_value := zeroColor } }

/-- `create_rendertarget` (gpu_ctx_gl.c): builds the default render-target
params and either initializes an owned target (a color texture is given) or
wraps the external/default framebuffer. -/
def create_rendertarget (d : GlDriver) (gl : GlContext) (config : NglConfig)
    (color resolve_color depth_stencil : Option Texture) (load_op : LoadOp) :
    Except Err RTargetGL :=
  let params := default_rt_params config color resolve_color depth_stencil load_op
  if color.isSome then
    ngli_rendertarget_gl_init d gl params
  else
    let fbo_id := if config.is_external then config.external_fbo
                  else gl.default_framebuffer
    .ok (ngli_rendertarget_gl_wrap params fbo_id)

/-! ## The GL GPU context (`struct gpu_ctx_gl`) -/

inductive CaptureKind
  | cpu
  | corevideo
  deriving DecidableEq

/-- The timer-query tier selected once by `timer_init`. -/
inductive TimerTier
  | core
  | ext
  | noop
  deriving DecidableEq

/-- `struct rendertarget_desc` as filled by `gl_init`. -/
structure RTDesc where
  samples : Int
  nb_colors : Nat
  color_format : PixelFormat
  color_resolve : Bool
  ds_format : PixelFormat
  ds_resolve : Bool
  deriving DecidableEq

structure GpuCtxGL where
  glcontext : GlContext
  config : NglConfig
  color : Option Texture
  ms_color : Option Texture
  depth_stencil : Option Texture
  default_rt : Option RTargetGL
  default_rt_load : Option RTargetGL
  capture_func : Option CaptureKind
  timer : TimerTier
  default_rt_desc : RTDesc
  viewport : IVec4
  scissor : IVec4
  /-- messages logged at warning severity -/
  warnings : List String
  deriving DecidableEq

/-- Modelled from the spec: `ngli_texture_init` (texture_gl.c, outside the
embedded sources) allocates a GPU texture and may fail at driver level. -/
def ngli_texture_init (d : GlDriver) (t : Texture) : Except Err Texture :=
  if d.texture_ok then .ok t else .error .graphicsUnsupported

/-- `create_texture` (gpu_ctx_gl.c): a 2D color-attachment texture with the
config's dimensions. -/
def create_texture (d : GlDriver) (config : NglConfig) (format : PixelFormat)
    (samples : Int) : Except Err Texture :=
  ngli_texture_init d { format, width := config.width, height := config.height, samples }

def msaa_warning : String :=
  "context does not support the framebuffer object feature, multisample anti-aliasing will be disabled"

/-- The `capture_func_map` array of `offscreen_rendertarget_init`. -/
def capture_func_map : CaptureBufferType → Option CaptureKind
  | .cpu => some .cpu
  | .corevideo => some .corevideo
  | .invalid => none

/-- The capture-type-dependent color-attachment step of
`offscreen_rendertarget_init`.  `apple` is the TARGET_IPHONE/TARGET_DARWIN
compile-time flag; CoreVideo pixel-buffer wrapping is collapsed to the
`cv_ok` oracle. -/
def offscreen_color_step (d : GlDriver) (apple : Bool) (config : NglConfig)
    (s : GpuCtxGL) : Except Err GpuCtxGL :=
  match config.capture_buffer_type with
  | .corevideo =>
      if apple then
        match config.capture_buffer with
        | some _ =>
            if d.cv_ok then
              .ok { s with color := some { format := .b8g8r8a8_unorm
                                           width := d.cv_width
                                           height := d.cv_height
                                           samples := 0 } }
            else .error .externalErr
        | none =>
            match create_texture d config .r8g8b8a8_unorm 0 with
            | .error e => .error e
            | .ok t => .ok { s with color := some t }
      else .error .unsupported
  | .cpu =>
      match create_texture d config .r8g8b8a8_unorm 0 with
      | .error e => .error e
      | .ok t => .ok { s with color := some t }
  | .invalid => .error .unsupported

/-- The multisample color-attachment step of `offscreen_rendertarget_init`. -/
def offscreen_ms_step (d : GlDriver) (config : NglConfig) (s : GpuCtxGL) :
    Except Err GpuCtxGL :=
  if config.samples ≠ 0 then
    match create_texture d config .r8g8b8a8_unorm config.samples with
    | .error e => .error e
    | .ok t => .ok { s with ms_color := some t }
  else .ok s

/-- The final step of `offscreen_rendertarget_init`: depth-stencil texture,
both default render targets, the capture function. -/
def offscreen_finish (d : GlDriver) (gl : GlContext) (config : NglConfig)
    (s : GpuCtxGL) : Except Err GpuCtxGL :=
  match create_texture d config .d24_unorm_s8_uint config.samples with
  | .error e => .error e
  | .ok dst =>
    let s := { s with depth_stencil := some dst }
    let color := if s.ms_color.isSome then s.ms_color else s.color
    let resolve_color := if s.ms_color.isSome then s.color else none
    match create_rendertarget d gl config color resolve_color s.depth_stencil .clear with
    | .error e => .error e
    | .ok rt =>
      match create_rendertarget d gl config color resolve_color s.depth_stencil .load with
      | .error e => .error e
      | .ok rt_load =>
        .ok { s with default_rt := some rt, default_rt_load := some rt_load
                     capture_func := capture_func_map config.capture_buffer_type }

/-- `offscreen_rendertarget_init`: MSAA clamp with warning when the
framebuffer-object feature is missing, then the three steps above. -/
def offscreen_rendertarget_init (d : GlDriver) (apple : Bool) (s : GpuCtxGL) :
    Except Err GpuCtxGL :=
  let gl := s.glcontext
  let clamp := ¬gl.features.framebuffer_object ∧ s.config.samples > 0
  let config := if clamp then { s.config with samples := 0 } else s.config
  let warns : List String := if clamp then [msaa_warning] else []
  let s := { s with config, warnings := s.warnings ++ warns }
  match offscreen_color_step d apple config s with
  | .error e => .error e
  | .ok s =>
    match offscreen_ms_step d config s with
    | .error e => .error e
    | .ok s => offscreen_finish d gl config s

/-- `onscreen_rendertarget_init`: two wrappers of the platform default
framebuffer. -/
def onscreen_rendertarget_init (d : GlDriver) (s : GpuCtxGL) :
    Except Err GpuCtxGL :=
  match create_rendertarget d s.glcontext s.config none none none .clear with
  | .error e => .error e
  | .ok rt =>
    match create_rendertarget d s.glcontext s.config none none none .load with
    | .error e => .error e
    | .ok rt_load => .ok { s with default_rt := some rt, default_rt_load := some rt_load }

/-- `timer_init`: picks the timer-query tier from the feature bits. -/
def timer_init (s : GpuCtxGL) : GpuCtxGL :=
  let gl := s.glcontext
  { s with timer :=
      if gl.features.timer_query then .core
      else if gl.features.disjoint_timer_query then .ext
      else .noop }

/-- `ngli_gpu_ctx_gl_wrap_framebuffer`: rejects non-external contexts,
optionally introspects the new framebuffer (skipped without the FBO feature),
rebuilds both default render targets, then records the new framebuffer id. -/
def ngli_gpu_ctx_gl_wrap_framebuffer (d : GlDriver) (s : GpuCtxGL) (fbo : Nat) :
    Except Err GpuCtxGL :=
  let config := s.config
  let gl := s.glcontext
  if ¬config.is_external then .error .unsupported
  else if gl.features.framebuffer_object ∧ ¬d.wrap_check_ok then
    .error .graphicsUnsupported
  else
    let s := { s with default_rt := none, default_rt_load := none }
    match create_rendertarget d gl config none none none .clear with
    | .error e => .error e
    | .ok rt =>
      match create_rendertarget d gl config none none none .load with
      | .error e => .error e
      | .ok rt_load =>
        let bc := config.backend_config.map (fun c => { c with external_framebuffer := fbo })
        let config := { config with backend_config := bc }
        .ok { s with default_rt := some rt, default_rt_load := some rt_load, config }

/-- A zero GPU context, used as the freshly `calloc`ed state of `gl_create`. -/
def gpu_ctx_zero (gl : GlContext) (config : NglConfig) : GpuCtxGL :=
  { glcontext := gl
    config
    color := none
    ms_color := none
    depth_stencil := none
    default_rt := none
    default_rt_load := none
    capture_func := none
    timer := .noop
    default_rt_desc := { samples := 0, nb_colors := 0, color_format := .r8g8b8a8_unorm
                         color_resolve := false, ds_format := .d24_unorm_s8_uint
                         ds_resolve := false }
    viewport := ⟨0, 0, 0, 0⟩
    scissor := ⟨0, 0, 0, 0⟩
    warnings := [] }

/-- The tail of `gl_init` after the mode-specific default-render-target
construction: timer tier, render-target descriptor, viewport and scissor.
`gl_init` itself does the per-mode validation, native context creation and
the mode's default-render-target construction (onscreen syncs the config
dimensions with the swapchain first) before this tail. -/
def gl_init_tail (s : GpuCtxGL) : GpuCtxGL :=
  let s := timer_init s
  let gl := s.glcontext
  let desc : RTDesc :=
    { samples := gl.samples
      nb_colors := 1
      color_format := .r8g8b8a8_unorm
      color_resolve := gl.samples > 1
      ds_format := .d24_unorm_s8_uint
      ds_resolve := gl.samples > 1 }
  let s := { s with default_rt_desc := desc }
  let config := s.config
  let s :=
    if config.viewport.z > (0 : Int) ∧ config.viewport.w > (0 : Int) then
      { s with viewport := config.viewport }
    else
      { s with viewport := ⟨0, 0, config.width, config.height⟩ }
  { s with scissor := ⟨0, 0, config.width, config.height⟩ }

/-- `gl_init`: per-mode validation (flattened from the C's nested
if/else-if), native context creation, the mode's default-render-target
construction, then the common tail. -/
def gl_init (d : GlDriver) (apple : Bool) (config : NglConfig) :
    Except Err GpuCtxGL :=
  if config.is_external ∧ (config.width ≤ 0 ∨ config.height ≤ 0) then
    .error .invalidArg
  else if config.is_external ∧ config.capture_buffer.isSome then
    .error .invalidArg
  else if ¬config.is_external ∧ config.offscreen ∧
      (config.width ≤ 0 ∨ config.height ≤ 0) then
    .error .invalidArg
  else if ¬config.is_external ∧ ¬config.offscreen ∧ config.capture_buffer.isSome then
    .error .invalidArg
  else
    match ngli_glcontext_new d config.offscreen config.width config.height with
    | none => .error .memory
    | some gl =>
      let s0 := gpu_ctx_zero gl config
      let step : Except Err GpuCtxGL :=
        if config.is_external then
          ngli_gpu_ctx_gl_wrap_framebuffer d s0 config.external_fbo
        else if gl.offscreen then
          offscreen_rendertarget_init d apple s0
        else
          onscreen_rendertarget_init d
            { s0 with config := { config with width := gl.width, height := gl.height } }
      match step with
      | .error e => .error e
      | .ok s => .ok (gl_init_tail s)

/-- The tail of `gl_resize` after the per-mode dimension update: both default
render targets' recorded dimensions (and, for non-external contexts, their
wrapped framebuffer id) are refreshed, then viewport and scissor.  The
default render targets always exist on an initialized context (the C code
dereferences them unconditionally); the `.generic` fallbacks only make the
model total. -/
def gl_resize_tail (s : GpuCtxGL) (viewport : Option IVec4) : Except Err GpuCtxGL :=
  match s.default_rt, s.default_rt_load with
  | some rt, some rt_load =>
    let rt := { rt with width := s.config.width, height := s.config.height }
    let rt_load := { rt_load with width := s.config.width, height := s.config.height }
    let rt := if ¬s.config.is_external then
        { rt with id := s.glcontext.default_framebuffer } else rt
    let rt_load := if ¬s.config.is_external then
        { rt_load with id := s.glcontext.default_framebuffer } else rt_load
    let s := { s with default_rt := some rt, default_rt_load := some rt_load }
    let s :=
      match viewport with
      | some v =>
          if v.z > 0 ∧ v.w > 0 then { s with viewport := v }
          else { s with viewport := ⟨0, 0, s.config.width, s.config.height⟩ }
      | none => { s with viewport := ⟨0, 0, s.config.width, s.config.height⟩ }
    .ok { s with scissor := ⟨0, 0, s.config.width, s.config.height⟩ }
  | _, _ => .error .generic

/-- `gl_resize`: external contexts adopt the requested dimensions, onscreen
contexts resize natively and read back the authoritative size, pure offscreen
contexts are rejected; the tail updates the default render targets. -/
def gl_resize (d : GlDriver) (s : GpuCtxGL) (width height : Int)
    (viewport : Option IVec4) : Except Err GpuCtxGL :=
  let config := s.config
  if config.is_external then
    gl_resize_tail { s with config := { config with width, height } } viewport
  else if ¬config.offscreen then
    match ngli_glcontext_resize d s.glcontext width height with
    | .error e => .error e
    | .ok gl =>
      gl_resize_tail
        { s with glcontext := gl
                 config := { config with width := gl.width, height := gl.height } }
        viewport
  else
    .error .unsupported

/-- `update_capture_cvpixelbuffer` (Apple-only path): releases the previous
capture wiring, wraps the new pixel buffer (or allocates a plain color
texture), rebuilds both default render targets. -/
def update_capture_cvpixelbuffer (d : GlDriver) (s : GpuCtxGL)
    (capture_buffer : Option Nat) : Except Err GpuCtxGL :=
  let s := { s with default_rt := none, default_rt_load := none, color := none }
  let color_step : Except Err GpuCtxGL :=
    match capture_buffer with
    | some _ =>
        if d.cv_ok then
          .ok { s with color := some { format := .b8g8r8a8_unorm
                                       width := d.cv_width
                                       height := d.cv_height
                                       samples := 0 } }
        else .error .externalErr
    | none =>
        match create_texture d s.config .r8g8b8a8_unorm 0 with
        | .error e => .error e
        | .ok t => .ok { s with color := some t }
  match color_step with
  | .error e => .error e
  | .ok s =>
    let color := if s.ms_color.isSome then s.ms_color else s.color
    let resolve_color := if s.ms_color.isSome then s.color else none
    match create_rendertarget d s.glcontext s.config color resolve_color s.depth_stencil .clear with
    | .error e => .error e
    | .ok rt =>
      match create_rendertarget d s.glcontext s.config color resolve_color s.depth_stencil .load with
      | .error e => .error e
      | .ok rt_load =>
        .ok { s with default_rt := some rt, default_rt_load := some rt_load, color := none }

/-- `gl_set_capture_buffer`: rejected outright for external and onscreen
contexts; CoreVideo re-wraps the capture resources, the CPU type only stores
the new buffer pointer. -/
def gl_set_capture_buffer (d : GlDriver) (apple : Bool) (s : GpuCtxGL)
    (capture_buffer : Option Nat) : Except Err GpuCtxGL :=
  let config := s.config
  if config.is_external then .error .unsupported
  else if ¬config.offscreen then .error .unsupported
  else
    match (if config.capture_buffer_type = .corevideo then
             (if apple then update_capture_cvpixelbuffer d s capture_buffer
              else .error .unsupported)
           else .ok s) with
    | .error e => .error e
    | .ok s => .ok { s with config := { s.config with capture_buffer } }

/-! ## Coordinate-system transforms (gpu_ctx_gl.c) -/

/-- `NGLI_CULL_MODE_*`. -/
inductive CullMode
  | none
  | front_bit
  | back_bit
  deriving DecidableEq

/-- `gl_transform_cull_mode`: identity for non-offscreen contexts, the
front/back swap (`cull_mode_map`) for offscreen contexts. -/
def gl_transform_cull_mode (config : NglConfig) (cull_mode : CullMode) : CullMode :=
  if ¬config.offscreen then cull_mode
  else
    match cull_mode with
    | .none => .none
    | .front_bit => .back_bit
    | .back_bit => .front_bit

/-- 4x4 matrices over the rationals.  The two constant matrices involved have
entries in -1, 0, 1, for which IEEE float products and the sums below are
exact, so the rational model is faithful. -/
abbrev Mat4 := Matrix (Fin 4) (Fin 4) ℚ

/-- Modelled from the spec: `ngli_mat4_mul` (math utils, outside the embedded
sources) is the standard 4x4 matrix product; the column-major C storage
`m[c*4+r]` is read here as the entry at row `r`, column `c`. -/
def ngli_mat4_mul (a b : Mat4) : Mat4 := a * b

/-- The constant Y-negating matrix of `gl_transform_projection_matrix`
(column-major `1,0,0,0, 0,-1,0,0, 0,0,1,0, 0,0,0,1`). -/
def flip_y_matrix : Mat4 :=
  Matrix.of ![![1, 0, 0, 0], ![0, -1, 0, 0], ![0, 0, 1, 0], ![0, 0, 0, 1]]

/-- `gl_transform_projection_matrix`: leaves the matrix alone for
non-offscreen contexts, otherwise multiplies it by the Y-negating matrix. -/
def gl_transform_projection_matrix (config : NglConfig) (dst : Mat4) : Mat4 :=
  if ¬config.offscreen then dst
  else ngli_mat4_mul flip_y_matrix dst

/-- The constant UV Y-flip matrix of `gl_get_rendertarget_uvcoord_matrix`
(column-major `1,0,0,0, 0,-1,0,0, 0,0,1,0, 0,1,0,1`). -/
def uvcoord_matrix : Mat4 :=
  Matrix.of ![![1, 0, 0, 0], ![0, -1, 0, 1], ![0, 0, 1, 0], ![0, 0, 0, 1]]

/-- `gl_get_rendertarget_uvcoord_matrix`: writes the UV Y-flip matrix into
`dst` for non-offscreen contexts, leaves `dst` untouched for offscreen
contexts. -/
def gl_get_rendertarget_uvcoord_matrix (config : NglConfig) (dst : Mat4) : Mat4 :=
  if config.offscreen then dst
  else uvcoord_matrix

/-! ## Scene graph nodes (api.c collaborators)

Modelled from the spec: the node graph (`ngl_node_ref`, `ngl_node_unrefp`,
`ngli_node_attach_ctx`, `ngli_node_detach_ctx`) lives outside the embedded
sources.  The spec describes the scene root as shared-owned and
reference-counted, attached to at most this context; a node is destroyed when
its last reference is dropped.  Nodes are identified by numbers and the world
maps each to its bookkeeping state. -/

structure NodeInfo where
  refcount : Nat
  attached : Bool
  destroyed : Bool
  deriving DecidableEq

abbrev World := Nat → NodeInfo

def World.set (w : World) (i : Nat) (info : NodeInfo) : World :=
  fun j => if j = i then info else w j

/-- Modelled from the spec: `ngl_node_ref` takes a new reference. -/
def ngl_node_ref (w : World) (i : Nat) : World :=
  w.set i { w i with refcount := (w i).refcount + 1 }

/-- Modelled from the spec: `ngl_node_unrefp` drops one reference and
destroys the node when it was the last one. -/
def ngl_node_unref (w : World) (i : Nat) : World :=
  let info := w i
  if info.refcount ≤ 1 then w.set i { info with refcount := 0, destroyed := true }
  else w.set i { info with refcount := info.refcount - 1 }

/-- Modelled from the spec: `ngli_node_detach_ctx` detaches the node tree
from the context. -/
def ngli_node_detach_ctx (w : World) (i : Nat) : World :=
  w.set i { w i with attached := false }

/-! ## Api-level driver oracle and context (`struct ngl_ctx`) -/

/-- Oracle for the api-layer external calls (node graph, HUD, program cache,
allocation, platform detection) plus the GL driver oracle. -/
structure ApiDriver where
  gl : GlDriver
  /-- TARGET_IPHONE/TARGET_DARWIN compile flag -/
  apple : Bool
  /-- `ngli_node_attach_ctx` succeeds on this node -/
  attach_ok : Nat → Bool
  /-- the error `ngli_node_attach_ctx` reports when it fails -/
  attach_err : Err
  hud_create_ok : Bool
  hud_init_ok : Bool
  pgcache_ok : Bool
  /-- `ngli_gpu_ctx_create`'s allocation succeeds -/
  alloc_ok : Bool
  /-- outcome of the per-frame prepare/draw work -/
  draw_ret : Except Err Unit
  /-- `get_default_platform` for the compile target (none: unsupported) -/
  target_platform : Option Platform

/-- Modelled from the spec: `ngli_node_attach_ctx` propagates backend handles
down the node graph; on failure the graph is left partially attached and the
caller must detach it. -/
def ngli_node_attach_ctx (d : ApiDriver) (w : World) (i : Nat) :
    Except Err Unit × World :=
  if d.attach_ok i then (.ok (), w.set i { w i with attached := true })
  else (.error d.attach_err, w.set i { w i with attached := true })

/-- `NGLI_ACTION_*` for `reset_scene` / `ngli_ctx_reset`. -/
inductive ResetAction
  | keep_scene
  | unref_scene
  deriving DecidableEq

/-- `struct ngl_ctx` restricted to the fields the embedded code reads.  The
modelled build compiles the OpenGL/OpenGL ES backends (`api_gl`), whose api
implementation functions are the `ngli_ctx_*` functions below. -/
structure NglCtx where
  configured : Bool
  config : Option NglConfig
  scene : Option Nat
  hud : Bool
  gpu_ctx : Option GpuCtxGL
  deriving DecidableEq

/-- `reset_scene`: frees the HUD, detaches the current scene, and (for
`unref_scene`) drops the context's reference to it. -/
def reset_scene (s : NglCtx) (w : World) (action : ResetAction) : NglCtx × World :=
  let s := { s with hud := false }
  match s.scene with
  | some n =>
      let w := ngli_node_detach_ctx w n
      match action with
      | .unref_scene => ({ s with scene := none }, ngl_node_unref w n)
      | .keep_scene => (s, w)
  | none => (s, w)

/-- The HUD tail of `ngli_ctx_set_scene`.  Note the C scoping quirk: the
`ngli_hud_init` result is stored in a shadowing inner `ret`, so when it fails
the function resets the scene but returns the outer `ret`, which is 0. -/
def set_scene_hud (d : ApiDriver) (s : NglCtx) (w : World) :
    Except Err Unit × NglCtx × World :=
  if (s.config.map (·.hud)).getD false then
    if ¬d.hud_create_ok then
      let (s, w) := reset_scene s w .unref_scene
      (.error Err.memory, s, w)
    else
      let s := { s with hud := true }
      if ¬d.hud_init_ok then
        let (s, w) := reset_scene s w .unref_scene
        (.ok (), s, w)
      else (.ok (), s, w)
  else (.ok (), s, w)

/-- `ngli_ctx_set_scene`: waits for GPU idle, detaches and drops the previous
scene, attaches the new one (detaching it again on failure), references it,
then sets up the HUD when enabled. -/
def ngli_ctx_set_scene (d : ApiDriver) (s : NglCtx) (w : World)
    (scene : Option Nat) : Except Err Unit × NglCtx × World :=
  let (s, w) := reset_scene s w .unref_scene
  match scene with
  | some n =>
      match ngli_node_attach_ctx d w n with
      | (.error e, w) => (.error e, s, ngli_node_detach_ctx w n)
      | (.ok _, w) =>
          let s := { s with scene := some n }
          let w := ngl_node_ref w n
          set_scene_hud d s w
  | none => set_scene_hud d s w

/-- `ngli_ctx_reset`: waits for GPU idle, resets the scene with the given
action, and frees the GPU context and the stored configuration. -/
def ngli_ctx_reset (s : NglCtx) (w : World) (action : ResetAction) :
    NglCtx × World :=
  let (s, w) := reset_scene s w action
  ({ s with gpu_ctx := none, config := none }, w)

/-- `ngli_ctx_configure`: copies the config, creates and initializes the GPU
context, initializes the program cache, seeds the projection-matrix stack,
and re-attaches the previously attached scene through `ngli_ctx_set_scene`
(restoring it detached on failure).  Any mid-way failure unwinds through
`ngli_ctx_reset` with the scene kept. -/
def ngli_ctx_configure (d : ApiDriver) (s : NglCtx) (w : World)
    (config : NglConfig) : Except Err Unit × NglCtx × World :=
  let s := { s with config := some config }
  if ¬d.alloc_ok then (.error Err.memory, { s with config := none }, w)
  else
    match gl_init d.gl d.apple config with
    | .error e => (.error e, { s with config := none, gpu_ctx := none }, w)
    | .ok g =>
        let s := { s with gpu_ctx := some g }
        if ¬d.pgcache_ok then
          let (s, w) := ngli_ctx_reset s w .keep_scene
          (.error Err.memory, s, w)
        else
          let old_scene := s.scene
          let s := { s with scene := none }
          match ngli_ctx_set_scene d s w old_scene with
          | (.ok _, s, w) =>
              let w := match old_scene with
                       | some n => ngl_node_unref w n
                       | none => w
              (.ok (), s, w)
          | (.error e, s, w) =>
              let s := { s with scene := old_scene }
              let (s, w) := ngli_ctx_reset s w .keep_scene
              (.error e, s, w)

/-- `ngli_ctx_resize`: delegates to the GPU backend's resize.  The `none`
case is unreachable on a configured context and only makes the model total. -/
def ngli_ctx_resize (d : ApiDriver) (s : NglCtx) (width height : Int)
    (viewport : Option IVec4) : Except Err Unit × NglCtx :=
  match s.gpu_ctx with
  | some g =>
      match gl_resize d.gl g width height viewport with
      | .ok g2 => (.ok (), { s with gpu_ctx := some g2 })
      | .error e => (.error e, s)
  | none => (.error Err.generic, s)

/-- `ngli_ctx_set_capture_buffer`: delegates to the GPU backend; on failure
the whole context is reset (scene kept), on success the api-level config copy
records the new buffer. -/
def ngli_ctx_set_capture_buffer (d : ApiDriver) (s : NglCtx) (w : World)
    (capture_buffer : Option Nat) : Except Err Unit × NglCtx × World :=
  match s.gpu_ctx with
  | some g =>
      match gl_set_capture_buffer d.gl d.apple g capture_buffer with
      | .error e =>
          let (s, w) := ngli_ctx_reset s w .keep_scene
          (.error e, s, w)
      | .ok g2 =>
          (.ok (), { s with gpu_ctx := some g2
                            config := s.config.map (fun c => { c with capture_buffer }) }, w)
  | none => (.error Err.generic, s, w)

/-- Modelled from the spec: the GL api implementation's wrap hook delegates
to `ngli_gpu_ctx_gl_wrap_framebuffer`. -/
def ngli_ctx_gl_wrap_framebuffer (d : ApiDriver) (s : NglCtx)
    (framebuffer : Nat) : Except Err Unit × NglCtx :=
  match s.gpu_ctx with
  | some g =>
      match ngli_gpu_ctx_gl_wrap_framebuffer d.gl g framebuffer with
      | .ok g2 => (.ok (), { s with gpu_ctx := some g2 })
      | .error e => (.error e, s)
  | none => (.error Err.generic, s)

/-- Modelled from the spec: `ngli_ctx_draw`'s prepare/update/render passes
traverse the node graph and issue GPU work through external collaborators;
their outcome is the driver's `draw_ret`, and they do not change the
dispatcher-visible context fields the claims are about. -/
def ngli_ctx_draw (d : ApiDriver) (s : NglCtx) (_t : Int) :
    Except Err Unit × NglCtx :=
  (d.draw_ret, s)

/-! ## Public entry points (`ngl_*`) -/

/-- `DEFAULT_BACKEND` on a desktop build. -/
def DEFAULT_BACKEND : Backend := .opengl

/-- `ngl_configure`: implicit full reset of an already-configured context
first, then NULL check, auto-backend/sub-config check, backend and platform
resolution, backend availability (the modelled build compiles only the GL
api implementation), then delegation; the configured flag is set only after
a successful delegate configure. -/
def ngl_configure (d : ApiDriver) (s : NglCtx) (w : World)
    (config : Option NglConfig) : Except Err Unit × NglCtx × World :=
  let (s, w) :=
    if s.configured then
      let (s, w) := ngli_ctx_reset s w .keep_scene
      ({ s with configured := false }, w)
    else (s, w)
  match config with
  | none => (.error Err.invalidArg, s, w)
  | some cfg =>
      if cfg.backend = .auto ∧ cfg.backend_config.isSome then
        (.error Err.invalidUsage, s, w)
      else
        let cfg := if cfg.backend = .auto then { cfg with backend := DEFAULT_BACKEND } else cfg
        match (if cfg.platform = .auto then d.target_platform else some cfg.platform) with
        | none => (.error Err.unsupported, s, w)
        | some platform =>
            let cfg := { cfg with platform }
            if cfg.backend = .invalid then (.error Err.invalidArg, s, w)
            else if cfg.backend = .vulkan then (.error Err.unsupported, s, w)
            else
              match ngli_ctx_configure d s w cfg with
              | (.error e, s, w) => (.error e, s, w)
              | (.ok _, s, w) => (.ok (), { s with configured := true }, w)

/-- `ngl_resize`. -/
def ngl_resize (d : ApiDriver) (s : NglCtx) (width height : Int)
    (viewport : Option IVec4) : Except Err Unit × NglCtx :=
  if ¬s.configured then (.error Err.invalidUsage, s)
  else ngli_ctx_resize d s width height viewport

/-- `ngl_set_capture_buffer`: clears the configured flag when the delegate
fails. -/
def ngl_set_capture_buffer (d : ApiDriver) (s : NglCtx) (w : World)
    (capture_buffer : Option Nat) : Except Err Unit × NglCtx × World :=
  if ¬s.configured then (.error Err.invalidUsage, s, w)
  else
    match ngli_ctx_set_capture_buffer d s w capture_buffer with
    | (.error e, s2, w2) => (.error e, { s2 with configured := false }, w2)
    | (.ok u, s2, w2) => (.ok u, s2, w2)

/-- `ngl_set_scene`. -/
def ngl_set_scene (d : ApiDriver) (s : NglCtx) (w : World)
    (scene : Option Nat) : Except Err Unit × NglCtx × World :=
  if ¬s.configured then (.error Err.invalidUsage, s, w)
  else ngli_ctx_set_scene d s w scene

/-- `ngl_draw`. -/
def ngl_draw (d : ApiDriver) (s : NglCtx) (t : Int) : Except Err Unit × NglCtx :=
  if ¬s.configured then (.error Err.invalidUsage, s)
  else ngli_ctx_draw d s t

/-- `ngl_gl_wrap_framebuffer`: the configured guard comes first; a configured
context of the modelled GL build always provides the wrap hook; the
configured flag is cleared when the delegate fails. -/
def ngl_gl_wrap_framebuffer (d : ApiDriver) (s : NglCtx) (framebuffer : Nat) :
    Except Err Unit × NglCtx :=
  if ¬s.configured then (.error Err.invalidUsage, s)
  else
    match ngli_ctx_gl_wrap_framebuffer d s framebuffer with
    | (.error e, s2) => (.error e, { s2 with configured := false })
    | (.ok _, s2) => (.ok (), s2)

/-! ## Capability probing (api.c) -/

/-- Which backends the build compiles (`BACKEND_GL`, `BACKEND_GLES`,
`BACKEND_VK`). -/
structure Build where
  gl : Bool
  gles : Bool
  vk : Bool

/-- `backend_ids`: the compile-time list of probe candidates. -/
def backend_ids (b : Build) : List Backend :=
  (if b.gl then [Backend.opengl] else []) ++
  (if b.gles then [Backend.opengles] else []) ++
  (if b.vk then [Backend.vulkan] else [])

/-- Oracle for the per-backend external probing steps: GPU context creation
(allocation), full initialization, and the capability-table copy
(`ngli_memdup` in `load_caps`).  The probed per-backend configs only differ
in the backend id, so the oracles are functions of it. -/
structure ProbeDriver where
  create_ok : Backend → Bool
  init_ok : Backend → Bool
  caps_ok : Backend → Bool

inductive ProbeMode
  | full
  | no_graphics
  deriving DecidableEq

/-- A `struct ngl_backend` probe result. -/
structure NglBackend where
  id : Backend
  is_default : Bool
  /-- a capability table was loaded (full probe only) -/
  has_caps : Bool
  deriving DecidableEq

/-- `backend_probe`: creates a GPU context and fills the identity fields; the
no-graphics mode stops there, the full mode also initializes the context and
loads the capability table. -/
def backend_probe (d : ProbeDriver) (b : Backend) (mode : ProbeMode) :
    Except Err NglBackend :=
  if ¬d.create_ok b then .error .memory
  else
    let res : NglBackend := { id := b, is_default := false, has_caps := false }
    match mode with
    | .no_graphics => .ok res
    | .full =>
        if ¬d.init_ok b then .error .graphicsUnsupported
        else if ¬d.caps_ok b then .error .memory
        else .ok { res with has_caps := true }

/-- `backends_probe`: walks the compiled backend list, skips entries the
user's config does not select, probes each independently and keeps the
successes (a failed probe is skipped with `continue`).  `user_backend` is the
backend field of the caller's config (or AUTO for the default config). -/
def backends_probe (bu : Build) (d : ProbeDriver) (user_backend : Backend)
    (mode : ProbeMode) : List NglBackend :=
  (backend_ids bu).filterMap (fun b =>
    if user_backend ≠ .auto ∧ user_backend ≠ b then none
    else
      match backend_probe d b mode with
      | .error _ => none
      | .ok r => some { r with is_default := b = DEFAULT_BACKEND })

/-- `ngl_backends_probe` (full probe). -/
def ngl_backends_probe (bu : Build) (d : ProbeDriver) (user_backend : Backend) :
    List NglBackend :=
  backends_probe bu d user_backend .full

/-- `ngl_backends_get` (lightweight, no-graphics probe). -/
def ngl_backends_get (bu : Build) (d : ProbeDriver) (user_backend : Backend) :
    List NglBackend :=
  backends_probe bu d user_backend .no_graphics

/-! ## The command mailbox (`ngli_ctx_dispatch_cmd` / `worker_thread`)

An interleaving semantics for two controller threads dispatching one command
each on the same context, plus the worker thread.  Statements executed under
one continuous hold of the mutex are grouped into a single atomic step; a
condition wait releases the mutex, and a waiter may retry whenever the mutex
is free (POSIX condition variables allow spurious wakeups, so every trace of
this relation is a schedule pthreads permits).  Faithful to the source:
`dispatch` publishes into `cmd_func` without checking the slot is free, and
reads `cmd_ret` only after `pthread_mutex_unlock`. -/

inductive Agent
  | ctlA
  | ctlB
  deriving DecidableEq

/-- The result each controller's command produces when executed. -/
def cmd_result : Agent → Int
  | .ctlA => 1
  | .ctlB => 2

inductive LockOwner
  | free
  | ctl (t : Agent)
  | wkr
  deriving DecidableEq

/-- Program counter of a controller running `ngli_ctx_dispatch_cmd`. -/
inductive CtlPC
  /-- before `pthread_mutex_lock` -/
  | start
  /-- holding the lock, at the `while (s->cmd_func)` test -/
  | check
  /-- blocked in `pthread_cond_wait(&s->cond_ctl, ...)`, lock released -/
  | waiting
  /-- after `pthread_mutex_unlock`, before `return s->cmd_ret` -/
  | read_ret
  | done
  deriving DecidableEq

/-- Program counter of the worker loop. -/
inductive WkrPC
  /-- before the initial `pthread_mutex_lock` -/
  | entry
  /-- holding the lock, at the `while (!s->cmd_func)` test -/
  | check
  /-- blocked in `pthread_cond_wait(&s->cond_wkr, ...)`, lock released -/
  | waiting
  deriving DecidableEq

structure MailboxState where
  owner : LockOwner
  /-- the `cmd_func`/`cmd_arg` slot: which controller's command is pending -/
  cmd : Option Agent
  cmd_ret : Int
  pcA : CtlPC
  pcB : CtlPC
  pcW : WkrPC
  /-- the value controller A's dispatch call returned -/
  obsA : Option Int
  obsB : Option Int
  /-- how many times each controller's command has been executed -/
  execA : Nat
  execB : Nat
  deriving DecidableEq

def MailboxState.pc (m : MailboxState) : Agent → CtlPC
  | .ctlA => m.pcA
  | .ctlB => m.pcB

def MailboxState.setPc (m : MailboxState) (t : Agent) (pc : CtlPC) : MailboxState :=
  match t with
  | .ctlA => { m with pcA := pc }
  | .ctlB => { m with pcB := pc }

def MailboxState.setObs (m : MailboxState) (t : Agent) (v : Int) : MailboxState :=
  match t with
  | .ctlA => { m with obsA := some v }
  | .ctlB => { m with obsB := some v }

def MailboxState.bumpExec (m : MailboxState) : Agent → MailboxState
  | .ctlA => { m with execA := m.execA + 1 }
  | .ctlB => { m with execB := m.execB + 1 }

/-- One interleaving step of the mailbox protocol. -/
inductive MailboxStep : MailboxState → MailboxState → Prop
  /-- controller: `pthread_mutex_lock`; `s->cmd_func = cmd_func; s->cmd_arg =
  arg; pthread_cond_signal(&s->cond_wkr)`; reach the loop test.  The slot is
  overwritten unconditionally, exactly as in the source. -/
  | dispatch_enter (m : MailboxState) (t : Agent) :
      m.pc t = .start → m.owner = .free →
      MailboxStep m { m.setPc t .check with owner := .ctl t, cmd := some t }
  /-- controller: loop test sees a pending command, `pthread_cond_wait`
  releases the lock. -/
  | ctl_wait (m : MailboxState) (t : Agent) :
      m.pc t = .check → m.owner = .ctl t → m.cmd.isSome →
      MailboxStep m { m.setPc t .waiting with owner := .free }
  /-- controller: wakes from the wait and reacquires the lock, back to the
  loop test. -/
  | ctl_wake (m : MailboxState) (t : Agent) :
      m.pc t = .waiting → m.owner = .free →
      MailboxStep m { m.setPc t .check with owner := .ctl t }
  /-- controller: loop test sees the slot cleared, exits the loop and runs
  `pthread_mutex_unlock`. -/
  | ctl_unlock (m : MailboxState) (t : Agent) :
      m.pc t = .check → m.owner = .ctl t → m.cmd = none →
      MailboxStep m { m.setPc t .read_ret with owner := .free }
  /-- controller: `return s->cmd_ret` — the read happens after the unlock and
  needs no lock. -/
  | ctl_read (m : MailboxState) (t : Agent) :
      m.pc t = .read_ret →
      MailboxStep m ((m.setObs t m.cmd_ret).setPc t .done)
  /-- worker: initial `pthread_mutex_lock`. -/
  | wkr_start (m : MailboxState) :
      m.pcW = .entry → m.owner = .free →
      MailboxStep m { m with owner := .wkr, pcW := .check }
  /-- worker: loop test sees no command, `pthread_cond_wait` releases the
  lock. -/
  | wkr_wait (m : MailboxState) :
      m.pcW = .check → m.owner = .wkr → m.cmd = none →
      MailboxStep m { m with owner := .free, pcW := .waiting }
  /-- worker: wakes and reacquires the lock, back to the loop test. -/
  | wkr_wake (m : MailboxState) :
      m.pcW = .waiting → m.owner = .free →
      MailboxStep m { m with owner := .wkr, pcW := .check }
  /-- worker: executes the pending command while holding the lock, stores
  `cmd_ret`, clears the slot, signals the controllers, loops (the commands
  here are not the stop command). -/
  | wkr_exec (m : MailboxState) (t : Agent) :
      m.pcW = .check → m.owner = .wkr → m.cmd = some t →
      MailboxStep m
        ({ m with cmd_ret := cmd_result t, cmd := none, pcW := .check }.bumpExec t)

/-- The initial state: lock free, empty slot, both controllers about to
dispatch, worker about to enter its loop. -/
def mailbox_init : MailboxState :=
  { owner := .free, cmd := none, cmd_ret := 0, pcA := .start, pcB := .start
    pcW := .entry, obsA := none, obsB := none, execA := 0, execB := 0 }

/-! ## Sample drivers, configurations and states used by the witnesses -/

def sampleFeatures : FeaturesGL :=
  { framebuffer_object := true, invalidate_subdata := true, clear_buffer := true
    draw_buffers := true, timer_query := true, disjoint_timer_query := false }

def sampleGlDriver : GlDriver :=
  { create_ok := true, features := sampleFeatures
    limits := { max_color_attachments := 8, max_draw_buffers := 8 }
    native_width := 640, native_height := 480, native_samples := 0
    default_framebuffer := 0, resize_ok := true, resized_width := 320
    resized_height := 200, fbo_complete := true, texture_ok := true
    wrap_check_ok := true, cv_ok := true, cv_width := 16, cv_height := 16 }

def sampleOffCfg : NglConfig :=
  { width := 16, height := 16, offscreen := true, backend := .opengl
    platform := .xlib, samples := 0, capture_buffer := none
    capture_buffer_type := .cpu, clear_color := zeroColor
    viewport := ⟨0, 0, 0, 0⟩, swap_interval := 0, hud := false
    backend_config := none }

def sampleOnCfg : NglConfig := { sampleOffCfg with offscreen := false }

def sampleExtCfg : NglConfig :=
  { sampleOffCfg with offscreen := false, backend_config := some ⟨true, 42⟩ }

def sampleApiDriver : ApiDriver :=
  { gl := sampleGlDriver, apple := false, attach_ok := fun _ => true
    attach_err := Err.memory, hud_create_ok := true, hud_init_ok := true
    pgcache_ok := true, alloc_ok := true, draw_ret := .ok ()
    target_platform := some .xlib }

def emptyWorld : World :=
  fun _ => { refcount := 0, attached := false, destroyed := false }

def freshCtx : NglCtx :=
  { configured := false, config := none, scene := none, hud := false, gpu_ctx := none }

/-- The context produced by a successful offscreen configure. -/
def offCtx : NglCtx :=
  (ngl_configure sampleApiDriver freshCtx emptyWorld (some sampleOffCfg)).2.1

/-- The context produced by a successful onscreen configure. -/
def onCtx : NglCtx :=
  (ngl_configure sampleApiDriver freshCtx emptyWorld (some sampleOnCfg)).2.1

/-! ## C1: state gating of the public entry points -/

/-- Every guarded public operation rejects `s` with `InvalidUsage` and
returns it (and the node world) unchanged. -/
def unconfigured_rejects (s : NglCtx) : Prop :=
  (∀ d width height vp, ngl_resize d s width height vp = (.error Err.invalidUsage, s)) ∧
  (∀ d w buf, ngl_set_capture_buffer d s w buf = (.error Err.invalidUsage, s, w)) ∧
  (∀ d w sc, ngl_set_scene d s w sc = (.error Err.invalidUsage, s, w)) ∧
  (∀ d t, ngl_draw d s t = (.error Err.invalidUsage, s)) ∧
  (∀ d fb, ngl_gl_wrap_framebuffer d s fb = (.error Err.invalidUsage, s))

lemma unconfigured_rejects_of_flag (s : NglCtx) (h : s.configured = false) :
    unconfigured_rejects s := by
  refine ⟨?_, ?_, ?_, ?_, ?_⟩ <;> intros <;>
    simp [ngl_resize, ngl_set_capture_buffer, ngl_set_scene, ngl_draw,
          ngl_gl_wrap_framebuffer, h]

/-- C1: each of resize, set_capture_buffer, set_scene, draw and
wrap_external_framebuffer, called on a Context whose configured flag is
unset, returns InvalidUsage and leaves the Context (and the scene world)
unchanged. -/
theorem c1_unconfigured_ops_rejected (s : NglCtx) (h : s.configured = false) :
    unconfigured_rejects s :=
  unconfigured_rejects_of_flag s h

theorem c1_unconfigured_ops_rejected_witness :
    freshCtx.configured = false ∧ unconfigured_rejects freshCtx :=
  ⟨rfl, c1_unconfigured_ops_rejected freshCtx rfl⟩

/-! ## Helper lemmas for the Except monad -/

deriving instance DecidableEq for Except

lemma throw_bind {α β : Type} (e : Err) (f : α → Except Err β) :
    (throw e : Except Err α) >>= f = .error e := rfl

lemma pure_bind_except {α β : Type} (a : α) (f : α → Except Err β) :
    (pure a : Except Err α) >>= f = f a := rfl

lemma except_bind_ok {α β : Type} (x : Except Err α) (f : α → Except Err β) (b : β) :
    x >>= f = .ok b ↔ ∃ a, x = .ok a ∧ f a = .ok b := by
  cases x <;> simp [Bind.bind, Except.bind]

lemma except_ok_ne_error {α : Type} (e : Err) (a : α) :
    (Except.ok a ≠ Except.error e) := by simp

/-! ## C3: mode exclusivity of resize and capture-buffer -/

/-- C3: `gl_resize` on a pure-offscreen (non-external) context fails with
Unsupported before touching anything (at the api layer the context comes back
unchanged), and `gl_set_capture_buffer` on an external or onscreen context
fails with Unsupported before any capture rewiring (the error is raised
before any state is produced). -/
theorem c3_resize_capture_mode_exclusivity (d : GlDriver) (apple : Bool)
    (ad : ApiDriver) (s : GpuCtxGL) (c : NglCtx) (width height : Int)
    (vp : Option IVec4) (buf : Option Nat) :
    (s.config.offscreen = true → s.config.is_external = false →
      gl_resize d s width height vp = .error Err.unsupported) ∧
    (c.gpu_ctx = some s → s.config.offscreen = true → s.config.is_external = false →
      ngli_ctx_resize ad c width height vp = (.error Err.unsupported, c)) ∧
    (s.config.is_external = true ∨ s.config.offscreen = false →
      gl_set_capture_buffer d apple s buf = .error Err.unsupported) := by
  refine ⟨?_, ?_, ?_⟩
  · intro hoff hext
    simp [gl_resize, hoff, hext, throw_bind]
  · intro hg hoff hext
    simp [ngli_ctx_resize, hg, gl_resize, hoff, hext, throw_bind]
  · rintro (hext | hon)
    · simp [gl_set_capture_buffer, hext, throw_bind]
    · by_cases hext : s.config.is_external
      · simp [gl_set_capture_buffer, hext, throw_bind]
      · simp [gl_set_capture_buffer, hon, hext, throw_bind]

/-- The GPU context of the sample offscreen configuration. -/
def offGpu : GpuCtxGL := ((gl_init sampleGlDriver false sampleOffCfg).toOption).getD
  (gpu_ctx_zero { offscreen := true, width := 0, height := 0, samples := 0
                  features := sampleFeatures, limits := ⟨8, 8⟩
                  default_framebuffer := 0 } sampleOffCfg)

/-- The GPU context of the sample onscreen configuration. -/
def onGpu : GpuCtxGL := ((gl_init sampleGlDriver false sampleOnCfg).toOption).getD
  (gpu_ctx_zero { offscreen := false, width := 0, height := 0, samples := 0
                  features := sampleFeatures, limits := ⟨8, 8⟩
                  default_framebuffer := 0 } sampleOnCfg)

theorem c3_resize_capture_mode_exclusivity_witness :
    (gl_resize sampleGlDriver offGpu 8 8 none = .error Err.unsupported) ∧
    (gl_set_capture_buffer sampleGlDriver false onGpu (some 3) = .error Err.unsupported) :=
  ⟨(c3_resize_capture_mode_exclusivity sampleGlDriver false sampleApiDriver offGpu
      freshCtx 8 8 none (some 3)).1 (by decide) (by decide),
   (c3_resize_capture_mode_exclusivity sampleGlDriver false sampleApiDriver onGpu
      freshCtx 8 8 none (some 3)).2.2 (Or.inr (by decide))⟩

/-! ## C9: failures of set_capture_buffer / wrap demote to UNCONFIGURED -/

/-- C9: when `ngl_set_capture_buffer` or `ngl_gl_wrap_framebuffer` fails on a
configured Context, the configured flag is cleared and every guarded
operation subsequently returns InvalidUsage until a new successful
configure. -/
theorem c9_failure_clears_configured (d : ApiDriver) (s : NglCtx) (w : World)
    (buf : Option Nat) (fb : Nat) (hc : s.configured = true) :
    (∀ e, (ngl_set_capture_buffer d s w buf).1 = .error e →
      (ngl_set_capture_buffer d s w buf).2.1.configured = false ∧
      unconfigured_rejects (ngl_set_capture_buffer d s w buf).2.1) ∧
    (∀ e, (ngl_gl_wrap_framebuffer d s fb).1 = .error e →
      (ngl_gl_wrap_framebuffer d s fb).2.configured = false ∧
      unconfigured_rejects (ngl_gl_wrap_framebuffer d s fb).2) := by
  constructor
  · intro e he
    rcases hx : ngli_ctx_set_capture_buffer d s w buf with ⟨r, s2, w2⟩
    cases r with
    | error e2 =>
        simp only [ngl_set_capture_buffer, hc, hx, not_true, Bool.not_true,
          Bool.false_eq_true, if_false]
        exact ⟨trivial, unconfigured_rejects_of_flag _ rfl⟩
    | ok u =>
        simp [ngl_set_capture_buffer, hc, hx] at he
  · intro e he
    rcases hx : ngli_ctx_gl_wrap_framebuffer d s fb with ⟨r, s2⟩
    cases r with
    | error e2 =>
        simp only [ngl_gl_wrap_framebuffer, hc, hx, not_true, Bool.not_true,
          Bool.false_eq_true, if_false]
        exact ⟨trivial, unconfigured_rejects_of_flag _ rfl⟩
    | ok u =>
        simp [ngl_gl_wrap_framebuffer, hc, hx] at he

theorem c9_failure_clears_configured_witness :
    ((ngl_set_capture_buffer sampleApiDriver onCtx emptyWorld (some 3)).1
        = .error Err.unsupported) ∧
    (ngl_set_capture_buffer sampleApiDriver onCtx emptyWorld (some 3)).2.1.configured = false ∧
    unconfigured_rejects (ngl_set_capture_buffer sampleApiDriver onCtx emptyWorld (some 3)).2.1 :=
  ⟨by decide,
   (c9_failure_clears_configured sampleApiDriver onCtx emptyWorld (some 3) 5
      (by decide)).1 Err.unsupported (by decide)⟩

/-! ## C10: implicit teardown before validation in reconfigure -/

/-- C10: `ngl_configure` on an already-configured Context tears down the
previous backend state and clears the configured flag before validating the
new configuration, so a NULL configuration (InvalidArgument) or an
auto-backend configuration carrying a backend-specific sub-config
(InvalidUsage) returns an error while leaving the Context unconfigured, its
GPU context and stored config destroyed, and its scene kept. -/
theorem c10_reconfigure_teardown_before_validation (d : ApiDriver) (s : NglCtx)
    (w : World) (hc : s.configured = true) :
    ((ngl_configure d s w none).1 = .error Err.invalidArg ∧
      (ngl_configure d s w none).2.1.configured = false ∧
      (ngl_configure d s w none).2.1.gpu_ctx = none ∧
      (ngl_configure d s w none).2.1.config = none ∧
      (ngl_configure d s w none).2.1.scene = s.scene) ∧
    (∀ cfg : NglConfig, cfg.backend = .auto → cfg.backend_config.isSome = true →
      (ngl_configure d s w (some cfg)).1 = .error Err.invalidUsage ∧
      (ngl_configure d s w (some cfg)).2.1.configured = false ∧
      (ngl_configure d s w (some cfg)).2.1.gpu_ctx = none ∧
      (ngl_configure d s w (some cfg)).2.1.config = none ∧
      (ngl_configure d s w (some cfg)).2.1.scene = s.scene) := by
  constructor
  · cases hs : s.scene <;>
      simp [ngl_configure, hc, ngli_ctx_reset, reset_scene, hs]
  · intro cfg hb hbc
    cases hs : s.scene <;>
      simp [ngl_configure, hc, ngli_ctx_reset, reset_scene, hs, hb, hbc]

theorem c10_reconfigure_teardown_before_validation_witness :
    offCtx.configured = true ∧
    (ngl_configure sampleApiDriver offCtx emptyWorld none).1 = .error Err.invalidArg ∧
    (ngl_configure sampleApiDriver offCtx emptyWorld none).2.1.configured = false ∧
    (ngl_configure sampleApiDriver offCtx emptyWorld none).2.1.gpu_ctx = none :=
  ⟨by decide,
   ((c10_reconfigure_teardown_before_validation sampleApiDriver offCtx emptyWorld
      (by decide)).1.1),
   ((c10_reconfigure_teardown_before_validation sampleApiDriver offCtx emptyWorld
      (by decide)).1.2.1),
   ((c10_reconfigure_teardown_before_validation sampleApiDriver offCtx emptyWorld
      (by decide)).1.2.2.1)⟩

/-! ## C4: set_scene attach-failure rollback -/

/-- C4: when attaching the new scene fails, `ngli_ctx_set_scene` returns the
attach error, the new scene is detached, and the Context's scene reference is
left cleared rather than pointing at the half-attached scene; the previous
scene ends up detached but — when an outside reference keeps it alive — not
destroyed. -/
theorem c4_set_scene_attach_failure (d : ApiDriver) (s : NglCtx) (w : World)
    (n p : Nat) (hscene : s.scene = some p) (hfail : d.attach_ok n = false)
    (hrc : 2 ≤ (w p).refcount) (hnd : (w p).destroyed = false) :
    (ngli_ctx_set_scene d s w (some n)).1 = .error d.attach_err ∧
    (ngli_ctx_set_scene d s w (some n)).2.1.scene = none ∧
    ((ngli_ctx_set_scene d s w (some n)).2.2 n).attached = false ∧
    ((ngli_ctx_set_scene d s w (some n)).2.2 p).attached = false ∧
    ((ngli_ctx_set_scene d s w (some n)).2.2 p).destroyed = false := by
  have hle : ¬(w p).refcount ≤ 1 := by omega
  simp only [ngli_ctx_set_scene, reset_scene, hscene, ngli_node_attach_ctx, hfail,
    Bool.false_eq_true, if_false]
  refine ⟨trivial, trivial, ?_, ?_, ?_⟩
  · simp [ngli_node_detach_ctx, World.set]
  · by_cases hnp : p = n
    · subst hnp
      simp [ngli_node_detach_ctx, ngl_node_unref, World.set, hle]
    · simp [ngli_node_detach_ctx, ngl_node_unref, World.set, hnp,
        Ne.symm hnp, hle]
  · by_cases hnp : p = n
    · subst hnp
      simp [ngli_node_detach_ctx, ngl_node_unref, World.set, hle, hnd]
    · simp [ngli_node_detach_ctx, ngl_node_unref, World.set, hnp,
        Ne.symm hnp, hle, hnd]

def c4Driver : ApiDriver :=
  { sampleApiDriver with
      attach_ok := fun _ => false
      attach_err := Err.graphicsUnsupported }

def c4World : World :=
  fun i => if i = 3 then ⟨2, true, false⟩ else ⟨1, false, false⟩

def c4Ctx : NglCtx := { offCtx with scene := some 3 }

theorem c4_set_scene_attach_failure_witness :
    (ngli_ctx_set_scene c4Driver c4Ctx c4World (some 7)).1 = .error c4Driver.attach_err ∧
    (ngli_ctx_set_scene c4Driver c4Ctx c4World (some 7)).2.1.scene = none ∧
    ((ngli_ctx_set_scene c4Driver c4Ctx c4World (some 7)).2.2 7).attached = false ∧
    ((ngli_ctx_set_scene c4Driver c4Ctx c4World (some 7)).2.2 3).attached = false ∧
    ((ngli_ctx_set_scene c4Driver c4Ctx c4World (some 7)).2.2 3).destroyed = false :=
  c4_set_scene_attach_failure c4Driver c4Ctx c4World 7 3 rfl rfl (by decide) rfl

/-! ## C6: coordinate-system transforms -/

/-- C6: in offscreen mode the cull-mode transform swaps FRONT and BACK and
fixes NONE, and the projection-matrix transform left-multiplies by the
Y-negating matrix (negating exactly the second row); in non-offscreen mode
the cull-mode and projection transforms are the identity and the UV-coord
matrix is the affine Y-flip `y := 1 - y`; and all three transforms depend
only on the offscreen flag of the configuration. -/
theorem c6_offscreen_transforms (cfg cfg2 : NglConfig) (m : CullMode) (dst : Mat4) :
    (cfg.offscreen = true →
      gl_transform_cull_mode cfg .front_bit = .back_bit ∧
      gl_transform_cull_mode cfg .back_bit = .front_bit ∧
      gl_transform_cull_mode cfg .none = .none ∧
      gl_transform_projection_matrix cfg dst = ngli_mat4_mul flip_y_matrix dst ∧
      (∀ i j, gl_transform_projection_matrix cfg dst i j =
        if i = 1 then -(dst i j) else dst i j) ∧
      gl_get_rendertarget_uvcoord_matrix cfg dst = dst) ∧
    (cfg.offscreen = false →
      gl_transform_cull_mode cfg m = m ∧
      gl_transform_projection_matrix cfg dst = dst ∧
      gl_get_rendertarget_uvcoord_matrix cfg dst = uvcoord_matrix ∧
      (∀ x y z : ℚ, uvcoord_matrix.mulVec ![x, y, z, 1] = ![x, 1 - y, z, 1])) ∧
    (cfg.offscreen = cfg2.offscreen →
      gl_transform_cull_mode cfg m = gl_transform_cull_mode cfg2 m ∧
      gl_transform_projection_matrix cfg dst = gl_transform_projection_matrix cfg2 dst ∧
      gl_get_rendertarget_uvcoord_matrix cfg dst =
        gl_get_rendertarget_uvcoord_matrix cfg2 dst) := by
  refine ⟨?_, ?_, ?_⟩
  · intro hoff
    refine ⟨?_, ?_, ?_, ?_, ?_, ?_⟩
    · simp [gl_transform_cull_mode, hoff]
    · simp [gl_transform_cull_mode, hoff]
    · simp [gl_transform_cull_mode, hoff]
    · simp [gl_transform_projection_matrix, hoff]
    · intro i j
      simp only [gl_transform_projection_matrix, hoff, ngli_mat4_mul]
      rw [if_neg (by simp), Matrix.mul_apply, Fin.sum_univ_four]
      fin_cases i <;>
        simp [flip_y_matrix, Matrix.cons_val_zero, Matrix.cons_val_one,
          Matrix.head_cons, Matrix.cons_val_succ, Matrix.vecHead,
          Matrix.vecTail, Function.comp]
    · simp [gl_get_rendertarget_uvcoord_matrix, hoff]
  · intro hon
    refine ⟨?_, ?_, ?_, ?_⟩
    · simp [gl_transform_cull_mode, hon]
    · simp [gl_transform_projection_matrix, hon]
    · simp [gl_get_rendertarget_uvcoord_matrix, hon]
    · intro x y z
      funext i
      rw [Matrix.mulVec]
      fin_cases i <;>
        simp [uvcoord_matrix, Matrix.dotProduct, Fin.sum_univ_four,
          Matrix.cons_val_zero, Matrix.cons_val_one, Matrix.head_cons,
          Matrix.cons_val_succ, Matrix.vecHead, Matrix.vecTail,
          Function.comp] <;> ring
  · intro hsame
    refine ⟨?_, ?_, ?_⟩
    · simp [gl_transform_cull_mode, hsame]
    · simp [gl_transform_projection_matrix, hsame]
    · simp [gl_get_rendertarget_uvcoord_matrix, hsame]

theorem c6_offscreen_transforms_witness :
    (sampleOffCfg.offscreen = true ∧
      gl_transform_cull_mode sampleOffCfg .front_bit = .back_bit ∧
      gl_transform_projection_matrix sampleOffCfg 1 = ngli_mat4_mul flip_y_matrix 1) ∧
    (sampleOnCfg.offscreen = false ∧
      gl_transform_cull_mode sampleOnCfg .front_bit = .front_bit ∧
      gl_get_rendertarget_uvcoord_matrix sampleOnCfg 1 = uvcoord_matrix) :=
  ⟨⟨rfl, (c6_offscreen_transforms sampleOffCfg sampleOffCfg .front_bit 1).1 rfl |>.1,
     (c6_offscreen_transforms sampleOffCfg sampleOffCfg .front_bit 1).1 rfl |>.2.2.2.1⟩,
   ⟨rfl, (c6_offscreen_transforms sampleOnCfg sampleOnCfg .front_bit 1).2.1 rfl |>.1,
     (c6_offscreen_transforms sampleOnCfg sampleOnCfg .front_bit 1).2.1 rfl |>.2.2.1⟩⟩

/-! ## C8: probe enumeration -/

/-- Whether the probing steps of the given mode all succeed for a backend. -/
def probe_pass (d : ProbeDriver) (b : Backend) : ProbeMode → Bool
  | .no_graphics => d.create_ok b
  | .full => d.create_ok b && d.init_ok b && d.caps_ok b

/-- The per-entry selection test of the probe loop. -/
def probe_selected (ub b : Backend) : Bool := ub == .auto || ub == b

lemma backend_probe_isOk (d : ProbeDriver) (b : Backend) (mode : ProbeMode) :
    (backend_probe d b mode).isOk = probe_pass d b mode := by
  cases mode with
  | no_graphics =>
      cases hco : d.create_ok b <;>
        simp [backend_probe, probe_pass, hco, Except.isOk, Except.toBool]
  | full =>
      cases hco : d.create_ok b
      · simp [backend_probe, probe_pass, hco, Except.isOk, Except.toBool]
      · cases hio : d.init_ok b
        · simp [backend_probe, probe_pass, hco, hio, Except.isOk, Except.toBool]
        · cases hca : d.caps_ok b <;>
            simp [backend_probe, probe_pass, hco, hio, hca, Except.isOk, Except.toBool]

lemma backend_probe_ok_id (d : ProbeDriver) (b : Backend) (mode : ProbeMode)
    (r : NglBackend) (h : backend_probe d b mode = .ok r) : r.id = b := by
  by_cases hco : d.create_ok b
  · cases mode with
    | no_graphics =>
        simp [backend_probe, hco] at h
        rw [← h]
    | full =>
        by_cases hio : d.init_ok b
        · by_cases hca : d.caps_ok b
          · simp [backend_probe, hco, hio, hca] at h
            rw [← h]
          · simp [backend_probe, hco, hio, hca] at h
        · simp [backend_probe, hco, hio] at h
  · simp [backend_probe, hco] at h

lemma backends_probe_ids (bu : Build) (d : ProbeDriver) (ub : Backend)
    (mode : ProbeMode) :
    (backends_probe bu d ub mode).map (fun r => r.id) =
      (backend_ids bu).filter (fun b => probe_selected ub b && probe_pass d b mode) := by
  unfold backends_probe
  induction backend_ids bu with
  | nil => rfl
  | cons b t ih =>
      simp only [List.filterMap_cons, List.filter_cons]
      by_cases hsel : ub ≠ Backend.auto ∧ ub ≠ b
      · have hps : (probe_selected ub b && probe_pass d b mode) = false := by
          simp [probe_selected, hsel.1, hsel.2]
        rw [if_pos hsel, hps]
        simpa using ih
      · have hs : probe_selected ub b = true := by
          simp only [not_and_or, not_not] at hsel
          rcases hsel with h | h <;> simp [probe_selected, h]
        rw [if_neg hsel]
        rcases hbp : backend_probe d b mode with e | r
        · have hpp : probe_pass d b mode = false := by
            have hok := backend_probe_isOk d b mode
            rw [hbp] at hok
            simpa [Except.isOk, Except.toBool] using hok.symm
          simp [hpp, hs, ih]
        · have hpp : probe_pass d b mode = true := by
            have hok := backend_probe_isOk d b mode
            rw [hbp] at hok
            simpa [Except.isOk, Except.toBool] using hok.symm
          have hid : r.id = b := backend_probe_ok_id d b mode r hbp
          simp [hpp, hs, hid, ih]

/-- C8: the full probe lists only backends compiled into the build, its
result is exactly the compiled backends that pass selection and every probing
step (so one backend's failure only removes that backend, never the rest),
and every backend listed by the full probe is also listed by the lightweight
probe, whose steps are a subset of the full probe's. -/
theorem c8_probe_roundtrip (bu : Build) (d : ProbeDriver) (ub : Backend) :
    ((ngl_backends_probe bu d ub).map (fun r => r.id) =
      (backend_ids bu).filter (fun b => probe_selected ub b && probe_pass d b .full)) ∧
    ((ngl_backends_get bu d ub).map (fun r => r.id) =
      (backend_ids bu).filter (fun b => probe_selected ub b && probe_pass d b .no_graphics)) ∧
    (∀ r, r ∈ ngl_backends_probe bu d ub → r.id ∈ backend_ids bu) ∧
    (∀ r, r ∈ ngl_backends_probe bu d ub →
      ∃ r2, r2 ∈ ngl_backends_get bu d ub ∧ r2.id = r.id) := by
  have hfull : (ngl_backends_probe bu d ub).map (fun r => r.id) =
      (backend_ids bu).filter (fun b => probe_selected ub b && probe_pass d b .full) :=
    backends_probe_ids bu d ub .full
  have hlight : (ngl_backends_get bu d ub).map (fun r => r.id) =
      (backend_ids bu).filter (fun b => probe_selected ub b && probe_pass d b .no_graphics) :=
    backends_probe_ids bu d ub .no_graphics
  refine ⟨hfull, hlight, ?_, ?_⟩
  · intro r hr
    have hmem : r.id ∈ (ngl_backends_probe bu d ub).map (fun r => r.id) :=
      List.mem_map_of_mem _ hr
    rw [hfull] at hmem
    exact List.mem_of_mem_filter hmem
  · intro r hr
    have hmem : r.id ∈ (ngl_backends_probe bu d ub).map (fun r => r.id) :=
      List.mem_map_of_mem _ hr
    rw [hfull, List.mem_filter] at hmem
    have hpass : (probe_selected ub r.id && probe_pass d r.id .no_graphics) = true := by
      have h2 := hmem.2
      simp only [Bool.and_eq_true, probe_pass] at h2 ⊢
      exact ⟨h2.1, h2.2.1.1⟩
    have hin : r.id ∈ (ngl_backends_get bu d ub).map (fun r => r.id) := by
      rw [hlight, List.mem_filter]
      exact ⟨hmem.1, hpass⟩
    rcases List.mem_map.mp hin with ⟨r2, hr2, hid⟩
    exact ⟨r2, hr2, hid⟩

def sampleBuild : Build := ⟨true, true, false⟩

/-- A probe driver whose OpenGL ES full initialization fails. -/
def sampleProbeDriver : ProbeDriver :=
  { create_ok := fun _ => true
    init_ok := fun b => b ≠ .opengles
    caps_ok := fun _ => true }

theorem c8_probe_roundtrip_witness :
    ((ngl_backends_probe sampleBuild sampleProbeDriver .auto).map (fun r => r.id) =
      [Backend.opengl]) ∧
    (∀ r, r ∈ ngl_backends_probe sampleBuild sampleProbeDriver .auto →
      ∃ r2, r2 ∈ ngl_backends_get sampleBuild sampleProbeDriver .auto ∧ r2.id = r.id) :=
  ⟨by decide,
   (c8_probe_roundtrip sampleBuild sampleProbeDriver .auto).2.2.2⟩

/-! ## C2 and C7: default render-target pairing and MSAA clamping -/

/-- The same render-target parameters with every load op (color and
depth-stencil) replaced. -/
def RTParams.withLoadOp (p : RTParams) (op : LoadOp) : RTParams :=
  { p with
      colors := p.colors.map (fun a => { a with load_op := op })
      depth_stencil := { p.depth_stencil with load_op := op } }

/-- The two default render targets of a GPU context exist, share their
attachments (the load-variant's parameters are exactly the clear-variant's
with the load op replaced by LOAD, and the clear-variant's ops are CLEAR),
and both record the context config's dimensions. -/
def default_rts_paired (s : GpuCtxGL) : Prop :=
  ∃ rt rtl, s.default_rt = some rt ∧ s.default_rt_load = some rtl ∧
    rtl.params = rt.params.withLoadOp .load ∧
    rt.params = rt.params.withLoadOp .clear ∧
    rt.width = s.config.width ∧ rt.height = s.config.height ∧
    rtl.width = s.config.width ∧ rtl.height = s.config.height

lemma default_rt_params_withLoadOp (config : NglConfig)
    (c rc ds : Option Texture) (op op2 : LoadOp) :
    (default_rt_params config c rc ds op).withLoadOp op2 =
      default_rt_params config c rc ds op2 := by
  simp [default_rt_params, RTParams.withLoadOp]

lemma create_rendertarget_ok (d : GlDriver) (gl : GlContext) (config : NglConfig)
    (c rc ds : Option Texture) (op : LoadOp) (rt : RTargetGL)
    (h : create_rendertarget d gl config c rc ds op = .ok rt) :
    rt.params = default_rt_params config c rc ds op ∧
    rt.width = config.width ∧ rt.height = config.height := by
  unfold create_rendertarget at h
  by_cases hc : c.isSome
  · rw [if_pos hc] at h
    unfold ngli_rendertarget_gl_init at h
    split at h
    · simp at h
    · split at h
      · simp at h
      · split at h
        · simp at h
        · split at h
          · simp at h
          · simp only [Except.ok.injEq] at h
            rw [← h]
            exact ⟨rfl, rfl, rfl⟩
  · rw [if_neg hc] at h
    simp only [Except.ok.injEq] at h
    rw [← h]
    exact ⟨rfl, rfl, rfl⟩

/-- The common final shape of every default-render-target construction: both
targets created via `create_rendertarget` from the same attachments and
config, with CLEAR and LOAD load ops. -/
lemma paired_of_creates (d : GlDriver) (gl : GlContext) (config : NglConfig)
    (c rc ds : Option Texture) (rt rtl : RTargetGL)
    (h1 : create_rendertarget d gl config c rc ds .clear = .ok rt)
    (h2 : create_rendertarget d gl config c rc ds .load = .ok rtl) :
    rtl.params = rt.params.withLoadOp .load ∧
    rt.params = rt.params.withLoadOp .clear ∧
    rt.width = config.width ∧ rt.height = config.height ∧
    rtl.width = config.width ∧ rtl.height = config.height := by
  obtain ⟨hp1, hw1, hh1⟩ := create_rendertarget_ok d gl config c rc ds .clear rt h1
  obtain ⟨hp2, hw2, hh2⟩ := create_rendertarget_ok d gl config c rc ds .load rtl h2
  refine ⟨?_, ?_, hw1, hh1, hw2, hh2⟩
  · rw [hp1, hp2, default_rt_params_withLoadOp]
  · rw [hp1, default_rt_params_withLoadOp]

lemma offscreen_color_step_fields (d : GlDriver) (apple : Bool)
    (config : NglConfig) (s s2 : GpuCtxGL)
    (h : offscreen_color_step d apple config s = .ok s2) :
    s2.config = s.config ∧ s2.warnings = s.warnings ∧ s2.glcontext = s.glcontext := by
  unfold offscreen_color_step at h
  repeat' split at h
  all_goals first
    | (simp only [Except.ok.injEq] at h
       rw [← h]
       exact ⟨rfl, rfl, rfl⟩)
    | simp at h

lemma offscreen_ms_step_fields (d : GlDriver) (config : NglConfig)
    (s s2 : GpuCtxGL) (h : offscreen_ms_step d config s = .ok s2) :
    s2.config = s.config ∧ s2.warnings = s.warnings ∧ s2.glcontext = s.glcontext := by
  unfold offscreen_ms_step at h
  repeat' split at h
  all_goals first
    | (simp only [Except.ok.injEq] at h
       rw [← h]
       exact ⟨rfl, rfl, rfl⟩)
    | simp at h

lemma offscreen_finish_ok (d : GlDriver) (gl : GlContext) (config : NglConfig)
    (s s2 : GpuCtxGL) (h : offscreen_finish d gl config s = .ok s2) :
    s2.config = s.config ∧ s2.warnings = s.warnings ∧
    ∃ rt rtl, s2.default_rt = some rt ∧ s2.default_rt_load = some rtl ∧
      rtl.params = rt.params.withLoadOp .load ∧
      rt.params = rt.params.withLoadOp .clear ∧
      rt.width = config.width ∧ rt.height = config.height ∧
      rtl.width = config.width ∧ rtl.height = config.height := by
  unfold offscreen_finish at h
  split at h
  · simp at h
  · rename_i dst hdst
    simp only [] at h
    split at h
    · simp at h
    · rename_i rt hrt
      split at h
      · simp at h
      · rename_i rtl hrtl
        obtain ⟨hpl, hpc, hw1, hh1, hw2, hh2⟩ :=
          paired_of_creates d gl config _ _ _ rt rtl hrt hrtl
        simp only [Except.ok.injEq] at h
        rw [← h]
        exact ⟨rfl, rfl, rt, rtl, rfl, rfl, hpl, hpc, hw1, hh1, hw2, hh2⟩

lemma offscreen_init_ok (d : GlDriver) (apple : Bool) (s s2 : GpuCtxGL)
    (h : offscreen_rendertarget_init d apple s = .ok s2) :
    default_rts_paired s2 ∧
    s2.config = (if ¬s.glcontext.features.framebuffer_object ∧ s.config.samples > 0
                 then { s.config with samples := 0 } else s.config) ∧
    s2.warnings = s.warnings ++
      (if ¬s.glcontext.features.framebuffer_object ∧ s.config.samples > 0
       then [msaa_warning] else []) := by
  unfold offscreen_rendertarget_init at h
  simp only [] at h
  generalize hC : (if ¬s.glcontext.features.framebuffer_object ∧ s.config.samples > 0
      then { s.config with samples := 0 } else s.config) = C at h ⊢
  generalize hW : (if ¬s.glcontext.features.framebuffer_object ∧ s.config.samples > 0
      then [msaa_warning] else ([] : List String)) = W at h ⊢
  split at h
  · simp at h
  · rename_i s3 hs3
    split at h
    · simp at h
    · rename_i s4 hs4
      obtain ⟨hc3, hw3, hg3⟩ := offscreen_color_step_fields _ _ _ _ _ hs3
      obtain ⟨hc4, hw4, hg4⟩ := offscreen_ms_step_fields _ _ _ _ hs4
      obtain ⟨hcf, hwf, rt, rtl, hrt, hrtl, hpl, hpc, hw1, hh1, hw2, hh2⟩ :=
        offscreen_finish_ok _ _ _ _ _ h
      have hconf : s2.config = C := by rw [hcf, hc4, hc3]
      have hwarn : s2.warnings = s.warnings ++ W := by rw [hwf, hw4, hw3]
      refine ⟨⟨rt, rtl, hrt, hrtl, hpl, hpc, ?_, ?_, ?_, ?_⟩, hconf, hwarn⟩ <;>
        rw [hconf]
      · exact hw1
      · exact hh1
      · exact hw2
      · exact hh2

lemma onscreen_init_ok (d : GlDriver) (s s2 : GpuCtxGL)
    (h : onscreen_rendertarget_init d s = .ok s2) :
    default_rts_paired s2 ∧ s2.config = s.config ∧ s2.warnings = s.warnings := by
  unfold onscreen_rendertarget_init at h
  split at h
  · simp at h
  · rename_i rt hrt
    split at h
    · simp at h
    · rename_i rtl hrtl
      obtain ⟨hpl, hpc, hw1, hh1, hw2, hh2⟩ :=
        paired_of_creates d s.glcontext s.config _ _ _ rt rtl hrt hrtl
      simp only [Except.ok.injEq] at h
      rw [← h]
      exact ⟨⟨rt, rtl, rfl, rfl, hpl, hpc, hw1, hh1, hw2, hh2⟩, rfl, rfl⟩

lemma wrap_framebuffer_ok (d : GlDriver) (s s2 : GpuCtxGL) (fbo : Nat)
    (h : ngli_gpu_ctx_gl_wrap_framebuffer d s fbo = .ok s2) :
    default_rts_paired s2 ∧ s2.config.width = s.config.width ∧
    s2.config.height = s.config.height ∧ s2.warnings = s.warnings := by
  unfold ngli_gpu_ctx_gl_wrap_framebuffer at h
  simp only [] at h
  split at h
  · simp at h
  · split at h
    · simp at h
    · split at h
      · simp at h
      · rename_i rt hrt
        split at h
        · simp at h
        · rename_i rtl hrtl
          obtain ⟨hpl, hpc, hw1, hh1, hw2, hh2⟩ :=
            paired_of_creates d s.glcontext s.config _ _ _ rt rtl hrt hrtl
          simp only [Except.ok.injEq] at h
          rw [← h]
          exact ⟨⟨rt, rtl, rfl, rfl, hpl, hpc, hw1, hh1, hw2, hh2⟩, rfl, rfl, rfl⟩

lemma gl_init_tail_fields (s : GpuCtxGL) :
    (gl_init_tail s).config = s.config ∧
    (gl_init_tail s).default_rt = s.default_rt ∧
    (gl_init_tail s).default_rt_load = s.default_rt_load ∧
    (gl_init_tail s).warnings = s.warnings := by
  simp only [gl_init_tail, timer_init]
  repeat' split
  all_goals exact ⟨rfl, rfl, rfl, rfl⟩

lemma paired_transport (s s2 : GpuCtxGL) (hc : s2.config.width = s.config.width)
    (hh : s2.config.height = s.config.height)
    (h1 : s2.default_rt = s.default_rt) (h2 : s2.default_rt_load = s.default_rt_load)
    (hp : default_rts_paired s) : default_rts_paired s2 := by
  obtain ⟨rt, rtl, ha, hb, hpl, hpc, hw1, hh1, hw2, hh2⟩ := hp
  exact ⟨rt, rtl, h1.trans ha, h2.trans hb, hpl, hpc,
    hc ▸ hw1, hh ▸ hh1, hc ▸ hw2, hh ▸ hh2⟩

lemma gl_init_ok_paired (d : GlDriver) (apple : Bool) (config : NglConfig)
    (g : GpuCtxGL) (h : gl_init d apple config = .ok g) :
    default_rts_paired g := by
  unfold gl_init at h
  split at h
  · simp at h
  · split at h
    · simp at h
    · split at h
      · simp at h
      · split at h
        · simp at h
        · split at h
          · simp at h
          · rename_i gl hgl
            simp only [] at h
            split at h
            · simp at h
            · rename_i s hs
              obtain ⟨ht1, ht2, ht3, ht4⟩ := gl_init_tail_fields s
              simp only [Except.ok.injEq] at h
              rw [← h]
              split at hs
              · obtain ⟨hp, hw, hh2, hwar⟩ := wrap_framebuffer_ok _ _ _ _ hs
                exact paired_transport _ _ (by rw [ht1]) (by rw [ht1]) ht2 ht3 hp
              · split at hs
                · obtain ⟨hp, hc2, hwar⟩ := offscreen_init_ok _ _ _ _ hs
                  exact paired_transport _ _ (by rw [ht1]) (by rw [ht1]) ht2 ht3 hp
                · obtain ⟨hp, hc2, hwar⟩ := onscreen_init_ok _ _ _ hs
                  exact paired_transport _ _ (by rw [ht1]) (by rw [ht1]) ht2 ht3 hp

lemma gl_resize_tail_dims (s : GpuCtxGL) (vp : Option IVec4) (s2 : GpuCtxGL)
    (h : gl_resize_tail s vp = .ok s2) :
    ∃ rt rtl, s2.default_rt = some rt ∧ s2.default_rt_load = some rtl ∧
      rt.width = s2.config.width ∧ rt.height = s2.config.height ∧
      rtl.width = s2.config.width ∧ rtl.height = s2.config.height := by
  unfold gl_resize_tail at h
  split at h
  · simp only [] at h
    repeat' split at h
    all_goals
      simp only [Except.ok.injEq] at h
    all_goals
      rw [← h]
    all_goals
      exact ⟨_, _, rfl, rfl, rfl, rfl, rfl, rfl⟩
  · simp at h

lemma gl_resize_ok_dims (d : GlDriver) (s : GpuCtxGL) (width height : Int)
    (vp : Option IVec4) (s2 : GpuCtxGL) (hr : gl_resize d s width height vp = .ok s2) :
    ∃ rt rtl, s2.default_rt = some rt ∧ s2.default_rt_load = some rtl ∧
      rt.width = s2.config.width ∧ rt.height = s2.config.height ∧
      rtl.width = s2.config.width ∧ rtl.height = s2.config.height := by
  unfold gl_resize at hr
  simp only [] at hr
  split at hr
  · exact gl_resize_tail_dims _ _ _ hr
  · split at hr
    · split at hr
      · simp at hr
      · exact gl_resize_tail_dims _ _ _ hr
    · simp at hr

/-- C2: after every successful `gl_init` (offscreen, onscreen or external
mode alike), the context holds its two default render targets, sharing the
same attachments and differing only in load op (CLEAR vs LOAD), and both
record the effective configuration dimensions; and every successful
`gl_resize` leaves both targets recording the new effective dimensions. -/
theorem c2_default_rendertarget_pairing :
    (∀ (d : GlDriver) (apple : Bool) (config : NglConfig) (g : GpuCtxGL),
      gl_init d apple config = .ok g → default_rts_paired g) ∧
    (∀ (d : GlDriver) (s : GpuCtxGL) (width height : Int) (vp : Option IVec4)
      (s2 : GpuCtxGL), gl_resize d s width height vp = .ok s2 →
      ∃ rt rtl, s2.default_rt = some rt ∧ s2.default_rt_load = some rtl ∧
        rt.width = s2.config.width ∧ rt.height = s2.config.height ∧
        rtl.width = s2.config.width ∧ rtl.height = s2.config.height) :=
  ⟨fun d apple config g h => gl_init_ok_paired d apple config g h,
   fun d s width height vp s2 hr => gl_resize_ok_dims d s width height vp s2 hr⟩

/-- The onscreen context after a successful resize. -/
def c2ResizedGpu : GpuCtxGL :=
  ((gl_resize sampleGlDriver onGpu 999 999 none).toOption).getD onGpu

theorem c2_default_rendertarget_pairing_witness :
    default_rts_paired offGpu ∧
    (∃ rt rtl, c2ResizedGpu.default_rt = some rt ∧
      c2ResizedGpu.default_rt_load = some rtl ∧
      rt.width = c2ResizedGpu.config.width ∧ rt.height = c2ResizedGpu.config.height ∧
      rtl.width = c2ResizedGpu.config.width ∧ rtl.height = c2ResizedGpu.config.height) :=
  ⟨c2_default_rendertarget_pairing.1 sampleGlDriver false sampleOffCfg offGpu (by decide),
   c2_default_rendertarget_pairing.2 sampleGlDriver onGpu 999 999 none c2ResizedGpu
     (by decide)⟩

/-! ## C7: silent MSAA clamp without framebuffer-object support -/

lemma create_rendertarget_succeeds (d : GlDriver) (gl : GlContext)
    (config : NglConfig) (c : Texture) (ds : Option Texture) (op : LoadOp)
    (hfc : d.fbo_complete = true)
    (hmax : 1 ≤ gl.limits.max_color_attachments)
    (hdb : gl.features.draw_buffers = false ∨ 1 ≤ gl.limits.max_draw_buffers) :
    ∃ rt, create_rendertarget d gl config (some c) none ds op = .ok rt := by
  have h1 : require_resolve_fbo (default_rt_params config (some c) none ds op) = false := by
    simp [require_resolve_fbo, default_rt_params]
  have h2 : create_fbo d gl (default_rt_params config (some c) none ds op) false
      = .ok 1 := by
    unfold create_fbo default_rt_params
    rw [if_neg (by simp; omega), if_pos hfc]
    rfl
  unfold create_rendertarget
  rw [if_pos (by simp)]
  unfold ngli_rendertarget_gl_init
  rw [if_neg (by simp [h1]), h1]
  simp only [Bool.false_eq_true, if_false, h2]
  have hlen : (default_rt_params config (some c) none ds op).colors.length = 1 := by
    simp [default_rt_params]
  rcases hdb with h | h
  · rw [if_neg (by simp [h])]
    exact ⟨_, rfl⟩
  · rw [if_neg (by rw [hlen]; simp; omega)]
    exact ⟨_, rfl⟩

lemma offscreen_color_step_cpu (d : GlDriver) (apple : Bool) (config : NglConfig)
    (s : GpuCtxGL) (hcap : config.capture_buffer_type = .cpu)
    (htex : d.texture_ok = true) :
    offscreen_color_step d apple config s =
      .ok { s with color := some { format := .r8g8b8a8_unorm
                                   width := config.width, height := config.height
                                   samples := 0 } } := by
  unfold offscreen_color_step
  rw [hcap]
  unfold create_texture ngli_texture_init
  rw [if_pos htex]

lemma offscreen_ms_step_zero (d : GlDriver) (config : NglConfig) (s : GpuCtxGL)
    (h : config.samples = 0) : offscreen_ms_step d config s = .ok s := by
  unfold offscreen_ms_step
  rw [h]
  simp

lemma offscreen_finish_succeeds (d : GlDriver) (gl : GlContext)
    (config : NglConfig) (s : GpuCtxGL) (t : Texture)
    (hcol : s.color = some t) (hms : s.ms_color = none)
    (htex : d.texture_ok = true) (hfc : d.fbo_complete = true)
    (hmax : 1 ≤ gl.limits.max_color_attachments)
    (hdb : gl.features.draw_buffers = false ∨ 1 ≤ gl.limits.max_draw_buffers) :
    ∃ s2, offscreen_finish d gl config s = .ok s2 := by
  have hdepth : create_texture d config .d24_unorm_s8_uint config.samples =
      .ok { format := .d24_unorm_s8_uint, width := config.width
            height := config.height, samples := config.samples } := by
    unfold create_texture ngli_texture_init
    rw [if_pos htex]
  obtain ⟨rt, hrt⟩ := create_rendertarget_succeeds d gl config t
    (some { format := .d24_unorm_s8_uint, width := config.width
            height := config.height, samples := config.samples }) .clear hfc hmax hdb
  obtain ⟨rtl, hrtl⟩ := create_rendertarget_succeeds d gl config t
    (some { format := .d24_unorm_s8_uint, width := config.width
            height := config.height, samples := config.samples }) .load hfc hmax hdb
  unfold offscreen_finish
  rw [hdepth]
  simp only [hms, hcol, Option.isSome_none, Bool.false_eq_true, if_false]
  rw [hrt, hrtl]
  exact ⟨_, rfl⟩

lemma offscreen_init_succeeds_clamped (d : GlDriver) (apple : Bool) (s : GpuCtxGL)
    (hcap : s.config.capture_buffer_type = .cpu)
    (hms : s.ms_color = none)
    (hfbo : s.glcontext.features.framebuffer_object = false)
    (hsam : 0 < s.config.samples)
    (htex : d.texture_ok = true) (hfc : d.fbo_complete = true)
    (hmax : 1 ≤ s.glcontext.limits.max_color_attachments)
    (hdb : s.glcontext.features.draw_buffers = false ∨
      1 ≤ s.glcontext.limits.max_draw_buffers) :
    ∃ s2, offscreen_rendertarget_init d apple s = .ok s2 := by
  have hclamp : (¬s.glcontext.features.framebuffer_object = true ∧
      s.config.samples > 0) := ⟨by simp [hfbo], hsam⟩
  unfold offscreen_rendertarget_init
  simp only []
  rw [if_pos hclamp, if_pos hclamp]
  rw [offscreen_color_step_cpu d apple _ _ (by simpa using hcap) htex]
  simp only []
  rw [offscreen_ms_step_zero d _ _ (by simp)]
  simp only []
  exact offscreen_finish_succeeds d s.glcontext _ _
    { format := .r8g8b8a8_unorm
      width := ({ s.config with samples := 0 } : NglConfig).width
      height := ({ s.config with samples := 0 } : NglConfig).height
      samples := 0 }
    (by simp) (by simpa using hms) htex hfc hmax hdb

/-- The native context created for an offscreen configuration. -/
def offscreen_glcontext (d : GlDriver) (cfg : NglConfig) : GlContext :=
  { offscreen := true
    width := cfg.width
    height := cfg.height
    samples := d.native_samples
    features := d.features
    limits := d.limits
    default_framebuffer := d.default_framebuffer }

/-- C7: an offscreen configuration requesting multisampling on a driver
without the framebuffer-object feature still initializes successfully (given
an otherwise healthy driver and a CPU capture type), with the effective
sample count silently clamped to 0 and the MSAA warning logged at warning
severity rather than an error returned; the default render targets are still
built as usual. -/
theorem c7_msaa_clamp_without_fbo (d : GlDriver) (cfg : NglConfig)
    (hoff : cfg.offscreen = true)
    (hsam : 0 < cfg.samples)
    (hfbo : d.features.framebuffer_object = false)
    (hcap : cfg.capture_buffer_type = .cpu)
    (hext : cfg.backend_config = none)
    (hwidth : 0 < cfg.width) (hheight : 0 < cfg.height)
    (hcr : d.create_ok = true) (htex : d.texture_ok = true)
    (hfc : d.fbo_complete = true)
    (hmax : 1 ≤ d.limits.max_color_attachments)
    (hdb : d.features.draw_buffers = false ∨ 1 ≤ d.limits.max_draw_buffers) :
    ∃ g, gl_init d false cfg = .ok g ∧ g.config.samples = 0 ∧
      msaa_warning ∈ g.warnings ∧ default_rts_paired g := by
  have hisext : cfg.is_external = false := by simp [NglConfig.is_external, hext]
  have hgl : ngli_glcontext_new d cfg.offscreen cfg.width cfg.height =
      some (offscreen_glcontext d cfg) := by
    unfold ngli_glcontext_new offscreen_glcontext
    rw [if_pos hcr, hoff]
    simp
  unfold gl_init
  rw [if_neg (by simp [hisext]), if_neg (by simp [hisext]),
    if_neg (by simp [hisext, hoff]; omega), if_neg (by simp [hoff]), hgl]
  simp only []
  rw [if_neg (by simp [hisext]),
    if_pos (show (offscreen_glcontext d cfg).offscreen = true from rfl)]
  obtain ⟨s2, hs2⟩ := offscreen_init_succeeds_clamped d false
    (gpu_ctx_zero (offscreen_glcontext d cfg) cfg)
    (by simpa [gpu_ctx_zero] using hcap) (by simp [gpu_ctx_zero])
    (by simpa [gpu_ctx_zero, offscreen_glcontext] using hfbo)
    (by simpa [gpu_ctx_zero] using hsam)
    htex hfc (by simpa [gpu_ctx_zero, offscreen_glcontext] using hmax)
    (by simpa [gpu_ctx_zero, offscreen_glcontext] using hdb)
  obtain ⟨hpair, hcfg, hwarn⟩ := offscreen_init_ok d false _ s2 hs2
  obtain ⟨ht1, ht2, ht3, ht4⟩ := gl_init_tail_fields s2
  rw [hs2]
  simp only []
  have hclamp : (¬(gpu_ctx_zero (offscreen_glcontext d cfg)
        cfg).glcontext.features.framebuffer_object = true ∧
      (gpu_ctx_zero (offscreen_glcontext d cfg) cfg).config.samples > 0) := by
    constructor
    · simp [gpu_ctx_zero, offscreen_glcontext, hfbo]
    · simpa [gpu_ctx_zero] using hsam
  rw [if_pos hclamp] at hcfg
  rw [if_pos hclamp] at hwarn
  refine ⟨gl_init_tail s2, rfl, ?_, ?_, ?_⟩
  · rw [ht1, hcfg]
  · rw [ht4, hwarn]
    simp [gpu_ctx_zero]
  · exact paired_transport _ _ (by rw [ht1]) (by rw [ht1]) ht2 ht3 hpair

/-- A driver identical to the sample one but without the framebuffer-object
feature. -/
def noFboDriver : GlDriver :=
  { sampleGlDriver with
      features := { sampleFeatures with framebuffer_object := false } }

/-- The sample offscreen configuration requesting 4x multisampling. -/
def msaaCfg : NglConfig := { sampleOffCfg with samples := 4 }

theorem c7_msaa_clamp_without_fbo_witness :
    ∃ g, gl_init noFboDriver false msaaCfg = .ok g ∧ g.config.samples = 0 ∧
      msaa_warning ∈ g.warnings ∧ default_rts_paired g :=
  c7_msaa_clamp_without_fbo noFboDriver msaaCfg rfl (by decide) rfl rfl rfl
    (by decide) (by decide) rfl rfl rfl (by decide) (Or.inr (by decide))

/-! ## C5: the dispatch mailbox under two concurrent controllers -/

/-- The state reached by the interleaving below: controller A's dispatch has
returned, yet A's command never executed and A observed B's result. -/
def mailbox_race_final : MailboxState :=
  { owner := .free, cmd := none, cmd_ret := 2, pcA := .done, pcB := .waiting
    pcW := .waiting, obsA := some 2, obsB := none, execA := 0, execB := 1 }

/-- C5 evidence: a legal schedule of `ngli_ctx_dispatch_cmd` (two controller
threads) and `worker_thread` in which controller B's `dispatch` overwrites
the still-pending command slot published by controller A (the code stores
into `cmd_func` unconditionally while A waits with the mutex released), the
worker executes only B's command, and A's dispatch then returns reading B's
result from `cmd_ret` (the code reads it after `pthread_mutex_unlock`).  So
with two concurrent dispatches one command can be lost entirely and the
losing thread observes the other thread's result, contradicting the
documented protocol. -/
theorem c5_dispatch_race_trace :
    Relation.ReflTransGen MailboxStep mailbox_init mailbox_race_final ∧
    mailbox_race_final.pcA = .done ∧
    mailbox_race_final.obsA = some (cmd_result .ctlB) ∧
    cmd_result .ctlA ≠ cmd_result .ctlB ∧
    mailbox_race_final.execA = 0 := by
  refine ⟨?_, rfl, rfl, by decide, rfl⟩
  refine Relation.ReflTransGen.head (MailboxStep.wkr_start _ rfl rfl) ?_
  refine Relation.ReflTransGen.head (MailboxStep.wkr_wait _ rfl rfl rfl) ?_
  refine Relation.ReflTransGen.head (MailboxStep.dispatch_enter _ .ctlA rfl rfl) ?_
  refine Relation.ReflTransGen.head (MailboxStep.ctl_wait _ .ctlA rfl rfl rfl) ?_
  refine Relation.ReflTransGen.head (MailboxStep.dispatch_enter _ .ctlB rfl rfl) ?_
  refine Relation.ReflTransGen.head (MailboxStep.ctl_wait _ .ctlB rfl rfl rfl) ?_
  refine Relation.ReflTransGen.head (MailboxStep.wkr_wake _ rfl rfl) ?_
  refine Relation.ReflTransGen.head (MailboxStep.wkr_exec _ .ctlB rfl rfl rfl) ?_
  refine Relation.ReflTransGen.head (MailboxStep.wkr_wait _ rfl rfl rfl) ?_
  refine Relation.ReflTransGen.head (MailboxStep.ctl_wake _ .ctlA rfl rfl) ?_
  refine Relation.ReflTransGen.head (MailboxStep.ctl_unlock _ .ctlA rfl rfl rfl) ?_
  refine Relation.ReflTransGen.head (MailboxStep.ctl_read _ .ctlA rfl) ?_
  exact Relation.ReflTransGen.refl
